import Mathlib

/-!
Verification development for the XHE kernel (identity + content addressing +
pulse log + slip ledger + social graph, persisted in a durable key-value
store).  The JavaScript source is embedded shallowly: JS objects used as
string-keyed maps become association lists with first-match lookup and
update-in-place semantics, machine numbers become `Int`/`Nat`, calls to
`timestamp()` and `randomHex()` become explicit oracle arguments, the
asynchronous and synchronous pulse-hash computations
(`sha256(JSON.stringify(pulse))` and `btoa(...).slice(0, 32)`) become
function parameters, and `throw` becomes `Except.error`.  Content hashing
(`crypto.subtle.digest("SHA-256", utf8Bytes)` rendered as lowercase hex) is
implemented concretely below.
-/


-- ============================================
-- SHA-256 (crypto utility, pure)
-- ============================================

def w32 (n : Nat) : Nat := n % 4294967296

def add32 (a b : Nat) : Nat := (a + b) % 4294967296

def rotr32 (n x : Nat) : Nat := w32 ((x >>> n) ||| (x <<< (32 - n)))

def xor32 (a b : Nat) : Nat := a ^^^ b

def and32 (a b : Nat) : Nat := a &&& b

def not32 (a : Nat) : Nat := 4294967295 ^^^ a

def utf8EncodeChar (c : Nat) : List Nat :=
  if c < 128 then [c]
  else if c < 2048 then [192 + c / 64, 128 + c % 64]
  else if c < 65536 then [224 + c / 4096, 128 + (c / 64) % 64, 128 + c % 64]
  else [240 + c / 262144, 128 + (c / 4096) % 64, 128 + (c / 64) % 64, 128 + c % 64]

def utf8Encode (s : String) : List Nat :=
  s.data.foldr (fun c acc => utf8EncodeChar c.toNat ++ acc) []

def be64 (n : Nat) : List Nat :=
  [n / 72057594037927936 % 256, n / 281474976710656 % 256, n / 1099511627776 % 256,
   n / 4294967296 % 256, n / 16777216 % 256, n / 65536 % 256, n / 256 % 256, n % 256]

def sha256pad (msg : List Nat) : List Nat :=
  let len := msg.length
  let z := (120 - ((len + 1) % 64)) % 64
  msg ++ [128] ++ List.replicate z 0 ++ be64 (len * 8)

def bytesToWords : List Nat → List Nat
  | b0 :: b1 :: b2 :: b3 :: rest => (b0 * 16777216 + b1 * 65536 + b2 * 256 + b3) :: bytesToWords rest
  | _ => []

def chunksGo : Nat → List Nat → List (List Nat)
  | 0, _ => []
  | f + 1, l => l.take 64 :: chunksGo f (l.drop 64)

def shaK : List Nat :=
  [1116352408, 1899447441, 3049323471, 3921009573, 961987163, 1508970993,
   2453635748, 2870763221, 3624381080, 310598401, 607225278, 1426881987,
   1925078388, 2162078206, 2614888103, 3248222580, 3835390401, 4022224774,
   264347078, 604807628, 770255983, 1249150122, 1555081692, 1996064986,
   2554220882, 2821834349, 2952996808, 3210313671, 3336571891, 3584528711,
   113926993, 338241895, 666307205, 773529912, 1294757372, 1396182291,
   1695183700, 1986661051, 2177026350, 2456956037, 2730485921, 2820302411,
   3259730800, 3345764771, 3516065817, 3600352804, 4094571909, 275423344,
   430227734, 506948616, 659060556, 883997877, 958139571, 1322822218,
   1537002063, 1747873779, 1955562222, 2024104815, 2227730452, 2361852424,
   2428436474, 2756734187, 3204031479, 3329325298]

def smallSigma0 (x : Nat) : Nat := xor32 (xor32 (rotr32 7 x) (rotr32 18 x)) (x >>> 3)

def smallSigma1 (x : Nat) : Nat := xor32 (xor32 (rotr32 17 x) (rotr32 19 x)) (x >>> 10)

def bigSigma0 (x : Nat) : Nat := xor32 (xor32 (rotr32 2 x) (rotr32 13 x)) (rotr32 22 x)

def bigSigma1 (x : Nat) : Nat := xor32 (xor32 (rotr32 6 x) (rotr32 11 x)) (rotr32 25 x)

def extendWords : List Nat → Nat → List Nat
  | ws, 0 => ws
  | ws, k + 1 =>
      let n := ws.length
      let w := add32 (add32 (ws.getD (n - 16) 0) (smallSigma0 (ws.getD (n - 15) 0)))
                     (add32 (ws.getD (n - 7) 0) (smallSigma1 (ws.getD (n - 2) 0)))
      extendWords (ws ++ [w]) k

structure ShaState where
  a : Nat
  b : Nat
  c : Nat
  d : Nat
  e : Nat
  f : Nat
  g : Nat
  h : Nat

def shaRound (st : ShaState) (kw : Nat × Nat) : ShaState :=
  let t1 := add32 (add32 st.h (bigSigma1 st.e))
                  (add32 (xor32 (and32 st.e st.f) (and32 (not32 st.e) st.g))
                         (add32 kw.1 kw.2))
  let t2 := add32 (bigSigma0 st.a)
                  (xor32 (xor32 (and32 st.a st.b) (and32 st.a st.c)) (and32 st.b st.c))
  { a := add32 t1 t2, b := st.a, c := st.b, d := st.c,
    e := add32 st.d t1, f := st.e, g := st.f, h := st.g }

def processChunk (hs : List Nat) (chunk : List Nat) : List Nat :=
  let ws := extendWords (bytesToWords chunk) 48
  let st0 : ShaState := { a := hs.getD 0 0, b := hs.getD 1 0, c := hs.getD 2 0, d := hs.getD 3 0,
                          e := hs.getD 4 0, f := hs.getD 5 0, g := hs.getD 6 0, h := hs.getD 7 0 }
  let st := (shaK.zip ws).foldl shaRound st0
  [add32 (hs.getD 0 0) st.a, add32 (hs.getD 1 0) st.b, add32 (hs.getD 2 0) st.c,
   add32 (hs.getD 3 0) st.d, add32 (hs.getD 4 0) st.e, add32 (hs.getD 5 0) st.f,
   add32 (hs.getD 6 0) st.g, add32 (hs.getD 7 0) st.h]

def shaH0 : List Nat :=
  [1779033703, 3144134277, 1013904242, 2773480762,
   1359893119, 2600822924, 528734635, 1541459225]

def hexDigitChar (d : Nat) : Char :=
  match d with
  | 0 => '0' | 1 => '1' | 2 => '2' | 3 => '3' | 4 => '4'
  | 5 => '5' | 6 => '6' | 7 => '7' | 8 => '8' | 9 => '9'
  | 10 => 'a' | 11 => 'b' | 12 => 'c' | 13 => 'd' | 14 => 'e'
  | _ => 'f'

def byteHex (b : Nat) : List Char := [hexDigitChar (b / 16), hexDigitChar (b % 16)]

def wordBytes (w : Nat) : List Nat := [w / 16777216 % 256, w / 65536 % 256, w / 256 % 256, w % 256]

/-- Models `sha256(content)` from the source: SHA-256 of the UTF-8 bytes of
`content`, rendered as lowercase hex, two digits per byte. -/
def sha256 (content : String) : String :=
  let msg := sha256pad (utf8Encode content)
  let hs := (chunksGo (msg.length / 64) msg).foldl processChunk shaH0
  ⟨(hs.foldr (fun w acc => wordBytes w ++ acc) []).foldr (fun b acc => byteHex b ++ acc) []⟩

-- ============================================
-- Association-list maps (JS objects used as string-keyed maps)
-- ============================================

/-- `m[k]` on a JS object: first matching key, else absent. -/
def lookupKV {V : Type} : List (String × V) → String → Option V
  | [], _ => none
  | (k1, v1) :: rest, k => if k1 = k then some v1 else lookupKV rest k

/-- `m[k] = v` on a JS object: overwrite the existing entry in place,
else append a new entry (JS objects keep insertion order). -/
def setKV {V : Type} : List (String × V) → String → V → List (String × V)
  | [], k, v => [(k, v)]
  | (k1, v1) :: rest, k, v => if k1 = k then (k, v) :: rest else (k1, v1) :: setKV rest k v

/-- Sum of the values of an association list (total of all balances). -/
def sumVals (m : List (String × Int)) : Int := (m.map (fun p => p.2)).sum

-- ============================================
-- Decimal rendering and the 8-digit sequence strings
-- (models `String(n).padStart(8, "0")`)
-- ============================================

def decDigits : Nat → Nat → List Nat
  | 0, _ => []
  | f + 1, n => if n < 10 then [n] else decDigits f (n / 10) ++ [n % 10]

def digitChar (d : Nat) : Char :=
  match d with
  | 0 => '0' | 1 => '1' | 2 => '2' | 3 => '3' | 4 => '4'
  | 5 => '5' | 6 => '6' | 7 => '7' | 8 => '8' | _ => '9'

/-- Decimal rendering of a natural number (models JS `String(n)`). -/
def decChars (n : Nat) : List Char := (decDigits (n + 1) n).map digitChar

def padSeqChars (n : Nat) : List Char :=
  List.replicate (8 - (decChars n).length) '0' ++ decChars n

/-- Models `String(n).padStart(8, "0")`, the sequence-number rendering. -/
def padSeq (n : Nat) : String := ⟨padSeqChars n⟩

def charVal (c : Char) : Nat := c.toNat - 48

/-- Reads a decimal digit string back as a number (leading zeros ignored). -/
def valChars (cs : List Char) : Nat := cs.foldl (fun a c => a * 10 + charVal c) 0

def val10 (a : Nat) (ds : List Nat) : Nat := ds.foldl (fun a d => a * 10 + d) a

-- ============================================
-- Data model
-- ============================================

/-- Current identity record (`did`, `publicKey`, `created`, `version`). -/
structure Identity where
  did : String
  publicKey : String
  created : String
  version : Nat
deriving DecidableEq, Repr

/-- Identity archived into history by `regenerateIdentity`. -/
structure ArchivedIdentity where
  did : String
  publicKey : String
  created : String
  version : Nat
  archivedAt : String
  reason : String
deriving DecidableEq, Repr

/-- The `postMeta` field `createPost` adds to a content-store entry. -/
structure PostMeta where
  id : String
  type : String
deriving DecidableEq, Repr

/-- Content-store entry keyed by content hash. -/
structure ContentEntry where
  content : String
  timestamp : String
  author : String
  scheme : String
  postMeta : Option PostMeta
deriving DecidableEq, Repr

/-- Address-index entry keyed by the full address (non-authoritative). -/
structure IndexEntry where
  hash : String
  type : String
  timestamp : String
  preview : String
deriving DecidableEq, Repr

/-- Structured pulse payloads (the JS payload object of each emit site). -/
inductive Payload where
  | kernelInit (version : String) (identity : String)
  | identityCreate (did : String)
  | identityRegenerate (oldDid newDid : String) (historyLength : Nat)
  | addressGenerate (address scheme hashShort : String)
  | addressResolve (addressShort scheme : String)
  | slipMint (amount : Int) (reason : String) (newBalance : Int)
  | slipTransfer (toShort : String) (amount : Int) (memo : String)
  | postCreate (postId hashShort preview : String)
  | followTarget (target : String)
  | unfollowTarget (target : String)
  | channelCreate (channelId name : String)
  | kernelReset (preserveIdentity : Bool) (timestamp : String)
deriving DecidableEq, Repr

/-- The canonical pre-hash pulse record
`{type, payload, timestamp, author, sequence, kernelVersion}`. -/
structure Pulse where
  type : String
  payload : Payload
  timestamp : String
  author : String
  sequence : String
  kernelVersion : String
deriving DecidableEq, Repr

/-- The stored pulse record: the pre-hash record plus `hash`, `address`, `id`. -/
structure StoredPulse where
  type : String
  payload : Payload
  timestamp : String
  author : String
  sequence : String
  kernelVersion : String
  hash : String
  address : String
  id : String
deriving DecidableEq, Repr

/-- Slip transaction. `MINT` records carry `reason`, `TRANSFER` records carry
`from` and `memo` (the JS objects simply omit the unused fields). -/
structure Transaction where
  id : String
  type : String
  fromDid : Option String
  toDid : String
  amount : Int
  reason : Option String
  memo : Option String
  timestamp : String
  address : String
deriving DecidableEq, Repr

/-- The slip ledger: balance map plus transaction log. -/
structure Ledger where
  balances : List (String × Int)
  transactions : List Transaction
deriving DecidableEq, Repr

structure SocialGraph where
  following : List String
  followers : List String
  blocked : List String
deriving DecidableEq, Repr

structure Post where
  id : String
  type : String
  content : String
  hash : String
  author : String
  timestamp : String
  replyTo : Option String
  repostOf : Option String
  channel : Option String
  address : String
deriving DecidableEq, Repr

structure Feed where
  id : String
  owner : String
  posts : List Post
  created : String
deriving DecidableEq, Repr

structure Channel where
  id : String
  name : String
  description : String
  owner : String
  created : String
  posts : List Post
  members : List String
  address : String
deriving DecidableEq, Repr

structure KernelMeta where
  version : String
  created : String
  lastActive : String
deriving DecidableEq, Repr

/-- The durable key-value store (localStorage): one `Option` per storage key;
`none` models an absent key, `loadState key dflt` is `(field).getD dflt`. -/
structure Store where
  kernelMeta : Option KernelMeta
  identity : Option Identity
  identityHistory : Option (List ArchivedIdentity)
  contentStore : Option (List (String × ContentEntry))
  pulseStore : Option (List (String × StoredPulse))
  pulseSequence : Option Nat
  addressIndex : Option (List (String × IndexEntry))
  slipLedger : Option Ledger
  socialGraph : Option SocialGraph
  feeds : Option (List (String × Feed))
  channels : Option (List (String × Channel))
deriving DecidableEq, Repr

/-- A store with no keys set (a fresh browser profile). -/
def freshStore : Store :=
  { kernelMeta := none, identity := none, identityHistory := none, contentStore := none,
    pulseStore := none, pulseSequence := none, addressIndex := none, slipLedger := none,
    socialGraph := none, feeds := none, channels := none }

/-- In-memory kernel state together with its durable store.  Every mutation
in the source immediately persists the store it touched, which the `save*`
helpers below mirror by updating both copies at once. -/
structure Kernel where
  store : Store
  kernelMeta : KernelMeta
  pulseSequence : Nat
  identity : Identity
  identityHistory : List ArchivedIdentity
  contentStore : List (String × ContentEntry)
  pulseStore : List (String × StoredPulse)
  addressIndex : List (String × IndexEntry)
  slipLedger : Ledger
  socialGraph : SocialGraph
  feeds : List (String × Feed)
  channels : List (String × Channel)
deriving DecidableEq, Repr

/-- JS exceptions: `new Error(msg)` and the implicit `TypeError`. -/
inductive JsError where
  | thrown (message : String)
  | typeError (message : String)
deriving DecidableEq, Repr

def saveMeta (k : Kernel) (m : KernelMeta) : Kernel :=
  { k with kernelMeta := m, store := { k.store with kernelMeta := some m } }

def saveSeq (k : Kernel) (n : Nat) : Kernel :=
  { k with pulseSequence := n, store := { k.store with pulseSequence := some n } }

def saveIdentity (k : Kernel) (i : Identity) : Kernel :=
  { k with identity := i, store := { k.store with identity := some i } }

def saveHistory (k : Kernel) (h : List ArchivedIdentity) : Kernel :=
  { k with identityHistory := h, store := { k.store with identityHistory := some h } }

def saveContent (k : Kernel) (c : List (String × ContentEntry)) : Kernel :=
  { k with contentStore := c, store := { k.store with contentStore := some c } }

def savePulses (k : Kernel) (p : List (String × StoredPulse)) : Kernel :=
  { k with pulseStore := p, store := { k.store with pulseStore := some p } }

def saveIndex (k : Kernel) (a : List (String × IndexEntry)) : Kernel :=
  { k with addressIndex := a, store := { k.store with addressIndex := some a } }

def saveLedger (k : Kernel) (l : Ledger) : Kernel :=
  { k with slipLedger := l, store := { k.store with slipLedger := some l } }

def saveSocial (k : Kernel) (s : SocialGraph) : Kernel :=
  { k with socialGraph := s, store := { k.store with socialGraph := some s } }

def saveFeeds (k : Kernel) (f : List (String × Feed)) : Kernel :=
  { k with feeds := f, store := { k.store with feeds := some f } }

def saveChannels (k : Kernel) (c : List (String × Channel)) : Kernel :=
  { k with channels := c, store := { k.store with channels := some c } }

/-- JS falsiness of `balances[did]`: an absent key and a zero balance are
both falsy (this conflation matters: a persisted balance of exactly 0 is
treated as \x22no balance\x22 by the genesis-grant check). -/
def jsFalsyBal : Option Int → Bool
  | none => true
  | some v => v == 0

/-- `x || 0` on a looked-up balance. -/
def balOr0 (o : Option Int) : Int := o.getD 0

/-- `options.x || null`: an empty string is collapsed to null. -/
def jsOrNull : Option String → Option String
  | none => none
  | some s => if s = "" then none else some s

/-- `s.slice(0, n)` on a JS string. -/
def takeChars (s : String) (n : Nat) : String := ⟨s.data.take n⟩

/-- `s.slice(a, b)` on a JS string (for nonnegative indices). -/
def sliceChars (s : String) (a b : Nat) : String := ⟨(s.data.drop a).take (b - a)⟩

-- ============================================
-- URI parser (pure)
-- ============================================

structure ParsedAddress where
  scheme : String
  sequence : Option String
  hash : String
deriving DecidableEq, Repr

/-- Models `parseAddress`: empty / unrecognized strings parse to `none`. -/
def parseAddress (address : String) : Option ParsedAddress :=
  if address = "" then none
  else
    let trimmed := address.trim
    if trimmed.startsWith "xhe://" then
      some { scheme := "xhe", sequence := none, hash := trimmed.drop 6 }
    else if trimmed.startsWith "did:xhe:" then
      some { scheme := "did:xhe", sequence := none, hash := trimmed.drop 8 }
    else if trimmed.startsWith "pulse://" then
      let rest := trimmed.drop 8
      let parts := rest.splitOn "/"
      if parts.length ≥ 2 then
        some { scheme := "pulse", sequence := some (parts.headD ""),
               hash := String.intercalate "/" parts.tail }
      else
        some { scheme := "pulse", sequence := none, hash := rest }
    else if trimmed.startsWith "ipfs://" then
      some { scheme := "ipfs", sequence := none, hash := trimmed.drop 7 }
    else if trimmed.startsWith "slip://" then
      some { scheme := "slip", sequence := none, hash := trimmed.drop 7 }
    else if trimmed.startsWith "feed://" then
      some { scheme := "feed", sequence := none, hash := trimmed.drop 7 }
    else if trimmed.startsWith "channel://" then
      some { scheme := "channel", sequence := none, hash := trimmed.drop 10 }
    else none

-- ============================================
-- Resolution results
-- ============================================

/-- Values the resolver serializes with `JSON.stringify`; the serializer is
abstracted to a tagged value (no claim inspects the rendered JSON text). -/
inductive ResolvedContent where
  | raw (s : String)
  | jsonIdentity (did publicKey created : String) (slipBalance : Int)
  | jsonPulse (p : StoredPulse)
  | jsonTx (t : Transaction)
  | jsonFeed (f : Feed)
  | jsonChannel (c : Channel)
deriving DecidableEq, Repr

inductive MetaVal where
  | contentMeta (timestamp author scheme : String)
  | indexMeta (e : IndexEntry)
  | ownIdentity (isOwn : Bool) (created : String)
  | archivedMeta (archivedAt reason : String)
  | pulseMeta (type author timestamp sequence : String)
  | txMeta (t : Transaction)
  | feedMeta (f : Feed)
  | channelMeta (c : Channel)
deriving DecidableEq, Repr

structure ResolutionResult where
  state : String
  type : String
  content : Option ResolvedContent
  error : Option String
  metadata : Option MetaVal
  address : String
deriving DecidableEq, Repr

-- ============================================
-- Pulse emitter
-- ============================================

structure EmitResult where
  pulseId : String
  address : String
  pulse : StoredPulse
deriving DecidableEq, Repr

/-- Shared body of `_emitPulse` / `_emitPulseSync`: allocate and persist the
next sequence number, build the pre-hash record, hash it with the given
hash function, store the full record keyed by `sequence/hash`, persist. -/
def appendPulse (hashFn : Pulse → String) (k : Kernel) (ty : String) (payload : Payload)
    (ts author version : String) : EmitResult × Kernel :=
  let k1 := saveSeq k (k.pulseSequence + 1)
  let sequence := padSeq k1.pulseSequence
  let pulse : Pulse := { type := ty, payload := payload, timestamp := ts, author := author,
                         sequence := sequence, kernelVersion := version }
  let hash := hashFn pulse
  let pulseId := sequence ++ "/" ++ hash
  let address := "pulse://" ++ pulseId
  let storedPulse : StoredPulse :=
    { type := ty, payload := payload, timestamp := ts, author := author, sequence := sequence,
      kernelVersion := version, hash := hash, address := address, id := pulseId }
  ({ pulseId := pulseId, address := address, pulse := storedPulse },
   savePulses k1 (setKV k1.pulseStore pulseId storedPulse))

/-- Models `_emitPulse` (asynchronous path, real pulse hash `hashFn`). -/
def emitPulseCore (hashFn : Pulse → String) (k : Kernel) (ty : String) (payload : Payload)
    (ts : String) : EmitResult × Kernel :=
  appendPulse hashFn k ty payload ts k.identity.did k.kernelMeta.version

/-- Models `_emitPulseSync` (bootstrap path, `btoa`-based placeholder hash);
`this.identity?.did || "kernel"` and `this.kernelMeta?.version || "1.0.0"`
become empty-string fallbacks (an undefined field is not representable once
a `Kernel` value exists). -/
def emitPulseSyncK (hashFn : Pulse → String) (k : Kernel) (ty : String) (payload : Payload)
    (ts : String) : Kernel :=
  (appendPulse hashFn k ty payload ts
    (if k.identity.did = "" then "kernel" else k.identity.did)
    (if k.kernelMeta.version = "" then "1.0.0" else k.kernelMeta.version)).2

-- ============================================
-- Kernel bootstrap (`constructor` → `_initializeKernel`)
-- ============================================

structure InitOracle where
  tsCreated : String
  tsActive : String
  tsIdentity : String
  tsInitPulse : String
  idHex : String
  keyHex : String
deriving DecidableEq, Repr

/-- The load phase of `_initializeKernel` once a stored identity `ident` is
available: load every store with its default, grant the genesis balance of
100 if the stored balance of `ident` is falsy (persisting the ledger). -/
def bootLoad (st1 : Store) (meta : KernelMeta) (ident : Identity) : Kernel :=
  let seq0 := st1.pulseSequence.getD 0
  let history := st1.identityHistory.getD []
  let content := st1.contentStore.getD []
  let pulses := st1.pulseStore.getD []
  let index := st1.addressIndex.getD []
  let ledger0 := st1.slipLedger.getD { balances := [], transactions := [] }
  let grant := jsFalsyBal (lookupKV ledger0.balances ident.did)
  let ledger1 := if grant
    then { ledger0 with balances := setKV ledger0.balances ident.did 100 }
    else ledger0
  let st2 := if grant then { st1 with slipLedger := some ledger1 } else st1
  { store := st2, kernelMeta := meta, pulseSequence := seq0, identity := ident,
    identityHistory := history, contentStore := content, pulseStore := pulses,
    addressIndex := index, slipLedger := ledger1,
    socialGraph := st2.socialGraph.getD { following := [], followers := [], blocked := [] },
    feeds := st2.feeds.getD [], channels := st2.channels.getD [] }

/-- Models `_initializeKernel` run against durable store `st0`.  Mirrors the
source order: metadata, sequence counter, identity, stores, genesis grant,
init pulse.  When no identity is stored (or its did is falsy),
`_createIdentity` saves the new identity and then reads
`this.slipLedger.balances` — but the slip ledger is only loaded later in
`_initializeKernel`, so that access hits `undefined` and the constructor
throws a `TypeError`; the error carries the store as mutated so far
(metadata and identity were already persisted). -/
def initKernel (hpS : Pulse → String) (st0 : Store) (o : InitOracle) :
    Except (JsError × Store) Kernel :=
  let isNew := st0.kernelMeta.isNone
  let meta : KernelMeta :=
    match st0.kernelMeta with
    | none => { version := "1.0.0", created := o.tsCreated, lastActive := o.tsActive }
    | some m => { m with lastActive := o.tsActive }
  let st1 := { st0 with kernelMeta := some meta }
  match st1.identity with
  | some ident =>
      if ident.did = "" then
        let newIdent : Identity := { did := "did:xhe:" ++ o.idHex, publicKey := o.keyHex,
                                     created := o.tsIdentity, version := 1 }
        .error (JsError.typeError "Cannot read properties of undefined (reading balances)",
                { st1 with identity := some newIdent })
      else
        let k := bootLoad st1 meta ident
        if isNew then
          .ok (emitPulseSyncK hpS k "KERNEL_INIT" (.kernelInit meta.version ident.did) o.tsInitPulse)
        else
          .ok k
  | none =>
      let newIdent : Identity := { did := "did:xhe:" ++ o.idHex, publicKey := o.keyHex,
                                   created := o.tsIdentity, version := 1 }
      .error (JsError.typeError "Cannot read properties of undefined (reading balances)",
              { st1 with identity := some newIdent })

-- ============================================
-- Identity operations
-- ============================================

/-- Models `_createIdentity(false)` in contexts where `this.slipLedger` is
loaded (regeneration and reset): build a fresh identity from the random
oracle, persist it, and grant the genesis balance of 100 if the new did has
a falsy balance.  The `emitPulse = true` variant is only ever requested
from `_initializeKernel`, which throws on the slip-ledger access before
reaching the emit, so no pulse is modeled here. -/
def createIdentityK (k : Kernel) (idHex keyHex tsIdentity : String) : Identity × Kernel :=
  let ident : Identity := { did := "did:xhe:" ++ idHex, publicKey := keyHex,
                            created := tsIdentity, version := 1 }
  let k1 := saveIdentity k ident
  let k2 :=
    if jsFalsyBal (lookupKV k1.slipLedger.balances ident.did) then
      saveLedger k1 { k1.slipLedger with balances := setKV k1.slipLedger.balances ident.did 100 }
    else k1
  (ident, k2)

structure RegenOracle where
  tsArchive : String
  idHex : String
  keyHex : String
  tsIdentity : String
  tsPulse : String
deriving DecidableEq, Repr

/-- Models `regenerateIdentity`: archive the current identity, create a new
one (with genesis grant if its balance is falsy), emit the pulse. -/
def regenerateIdentity (hpA : Pulse → String) (k : Kernel) (o : RegenOracle) :
    Identity × Kernel :=
  let archived : ArchivedIdentity :=
    { did := k.identity.did, publicKey := k.identity.publicKey, created := k.identity.created,
      version := k.identity.version, archivedAt := o.tsArchive, reason := "USER_REGENERATE" }
  let k1 := saveHistory k (k.identityHistory ++ [archived])
  let oldDid := k1.identity.did
  let created := createIdentityK k1 o.idHex o.keyHex o.tsIdentity
  let k3 := (emitPulseCore hpA created.2 "IDENTITY_REGENERATE"
    (.identityRegenerate oldDid created.1.did created.2.identityHistory.length) o.tsPulse).2
  (created.1, k3)

-- ============================================
-- Slip system (economic layer)
-- ============================================

/-- Models `getSlipBalance(did)`: `did || this.identity.did` (so `null` and
the empty string both fall back to the current identity), then
`balances[target] || 0`. -/
def getSlipBalance (k : Kernel) (did : Option String) : Int :=
  let target :=
    match did with
    | none => k.identity.did
    | some d => if d = "" then k.identity.did else d
  balOr0 (lookupKV k.slipLedger.balances target)

structure TxOracle where
  txId : String
  ts : String
  tsPulse : String
deriving DecidableEq, Repr

/-- Models `mintSlips`. -/
def mintSlips (hpA : Pulse → String) (k : Kernel) (amount : Int) (reason : String)
    (o : TxOracle) : Except JsError (Transaction × Kernel) :=
  if amount ≤ 0 then .error (.thrown "Amount must be positive")
  else
    let tx : Transaction :=
      { id := o.txId, type := "MINT", fromDid := none, toDid := k.identity.did, amount := amount,
        reason := some reason, memo := none, timestamp := o.ts, address := "slip://" ++ o.txId }
    let newBal := balOr0 (lookupKV k.slipLedger.balances k.identity.did) + amount
    let k1 := saveLedger k
      { balances := setKV k.slipLedger.balances k.identity.did newBal,
        transactions := k.slipLedger.transactions ++ [tx] }
    let k2 := (emitPulseCore hpA k1 "SLIP_MINT" (.slipMint amount reason newBal) o.tsPulse).2
    .ok (tx, k2)

/-- Models `transferSlips`.  The debit `balances[self] -= amount` only runs
after the guard `fromBalance >= amount > 0`, which forces the sender entry
to exist with value `fromBalance`, so the debit is written as an update to
`fromBalance - amount`. -/
def transferSlips (hpA : Pulse → String) (k : Kernel) (toDid : String) (amount : Int)
    (memo : String) (o : TxOracle) : Except JsError (Transaction × Kernel) :=
  if amount ≤ 0 then .error (.thrown "Amount must be positive")
  else
    let fromBalance := getSlipBalance k none
    if fromBalance < amount then
      .error (.thrown ("Insufficient slips: have " ++ toString fromBalance ++ ", need " ++
        toString amount))
    else
      let tx : Transaction :=
        { id := o.txId, type := "TRANSFER", fromDid := some k.identity.did, toDid := toDid,
          amount := amount, reason := none, memo := some memo, timestamp := o.ts,
          address := "slip://" ++ o.txId }
      let bs1 := setKV k.slipLedger.balances k.identity.did (fromBalance - amount)
      let bs2 := setKV bs1 toDid (balOr0 (lookupKV bs1 toDid) + amount)
      let k1 := saveLedger k
        { balances := bs2, transactions := k.slipLedger.transactions ++ [tx] }
      let k2 := (emitPulseCore hpA k1 "SLIP_TRANSFER"
        (.slipTransfer (takeChars toDid 20 ++ "...") amount memo) o.tsPulse).2
      .ok (tx, k2)

-- ============================================
-- Address generation
-- ============================================

structure GenOracle where
  ts : String
  tsPulse : String
deriving DecidableEq, Repr

structure GenResult where
  address : String
  hash : String
  timestamp : String
  pulseId : String
deriving DecidableEq, Repr

/-- Models `generateAddress(content, scheme, options)`.  `optSeq` is
`options.sequence`; the `pulse` scheme uses it when truthy, otherwise it
allocates (and persists) the next sequence number for the address itself.
The content store is written unconditionally (last write wins); then the
address index; then one `ADDRESS_GENERATE` pulse is emitted. -/
def generateAddress (hpA : Pulse → String) (k : Kernel) (content : String) (scheme : String)
    (optSeq : Option String) (o : GenOracle) : Except JsError (GenResult × Kernel) :=
  if content = "" then .error (.thrown "Content must be a non-empty string")
  else
    let hash := sha256 content
    let ts := o.ts
    let step : Except JsError (String × Kernel) :=
      if scheme = "xhe" then .ok ("xhe://" ++ hash, k)
      else if scheme = "did:xhe" then .ok ("did:xhe:" ++ takeChars hash 32, k)
      else if scheme = "pulse" then
        match jsOrNull optSeq with
        | some s => .ok ("pulse://" ++ s ++ "/" ++ hash, k)
        | none =>
            let k1 := saveSeq k (k.pulseSequence + 1)
            .ok ("pulse://" ++ padSeq k1.pulseSequence ++ "/" ++ hash, k1)
      else if scheme = "ipfs" then .ok ("ipfs://" ++ hash, k)
      else .error (.thrown ("Unknown scheme: " ++ scheme))
    match step with
    | .error e => .error e
    | .ok (address, k1) =>
        let entry : ContentEntry :=
          { content := content, timestamp := ts, author := k1.identity.did, scheme := scheme,
            postMeta := none }
        let k2 := saveContent k1 (setKV k1.contentStore hash entry)
        let preview := if content.length > 50 then takeChars content 50 ++ "..." else content
        let idx : IndexEntry := { hash := hash, type := scheme, timestamp := ts, preview := preview }
        let k3 := saveIndex k2 (setKV k2.addressIndex address idx)
        let er := emitPulseCore hpA k3 "ADDRESS_GENERATE"
          (.addressGenerate address scheme (takeChars hash 16 ++ "...")) o.tsPulse
        .ok ({ address := address, hash := hash, timestamp := ts, pulseId := er.1.pulseId }, er.2)

-- ============================================
-- Address resolution (structured truth states)
-- ============================================

def resolveContentAddress (k : Kernel) (address : String) (parsed : ParsedAddress) :
    ResolutionResult :=
  match lookupKV k.contentStore parsed.hash with
  | some entry =>
      { state := "RESOLVED", type := parsed.scheme, content := some (.raw entry.content),
        error := none, metadata := some (.contentMeta entry.timestamp entry.author entry.scheme),
        address := address }
  | none =>
      match lookupKV k.addressIndex address with
      | some ie =>
          { state := "KNOWN_BUT_UNAVAILABLE", type := parsed.scheme, content := none,
            error := some "Address known but content not available locally",
            metadata := some (.indexMeta ie), address := address }
      | none =>
          { state := "UNKNOWN", type := parsed.scheme, content := none,
            error := some "Address not found in kernel state", metadata := none,
            address := address }

def resolveIdentityAddress (k : Kernel) (address : String) (_parsed : ParsedAddress) :
    ResolutionResult :=
  if address = k.identity.did then
    { state := "RESOLVED", type := "did:xhe",
      content := some (.jsonIdentity k.identity.did k.identity.publicKey k.identity.created
        (balOr0 (lookupKV k.slipLedger.balances k.identity.did))),
      error := none, metadata := some (.ownIdentity true k.identity.created), address := address }
  else
    match k.identityHistory.find? (fun h => h.did == address) with
    | some historical =>
        { state := "KNOWN_BUT_UNAVAILABLE", type := "did:xhe", content := none,
          error := some "Historical identity (no longer active)",
          metadata := some (.archivedMeta historical.archivedAt historical.reason),
          address := address }
    | none =>
        if address ∈ k.socialGraph.following ∨ address ∈ k.socialGraph.followers then
          { state := "KNOWN_BUT_UNAVAILABLE", type := "did:xhe", content := none,
            error := some "Known identity but full data not available locally",
            metadata := none, address := address }
        else
          { state := "UNKNOWN", type := "did:xhe", content := none,
            error := some "Identity not found in kernel state", metadata := none,
            address := address }

def resolvePulseAddress (k : Kernel) (address : String) (parsed : ParsedAddress) :
    ResolutionResult :=
  let pulseKey :=
    match jsOrNull parsed.sequence with
    | some s => s ++ "/" ++ parsed.hash
    | none => parsed.hash
  match lookupKV k.pulseStore pulseKey with
  | some pulse =>
      { state := "RESOLVED", type := "pulse", content := some (.jsonPulse pulse),
        error := none,
        metadata := some (.pulseMeta pulse.type pulse.author pulse.timestamp pulse.sequence),
        address := address }
  | none =>
      { state := "UNKNOWN", type := "pulse", content := none,
        error := some "Pulse not found in kernel state", metadata := none, address := address }

def resolveSlipAddress (k : Kernel) (address : String) (parsed : ParsedAddress) :
    ResolutionResult :=
  match k.slipLedger.transactions.find? (fun t => t.id == parsed.hash) with
  | some tx =>
      { state := "RESOLVED", type := "slip", content := some (.jsonTx tx), error := none,
        metadata := some (.txMeta tx), address := address }
  | none =>
      { state := "UNKNOWN", type := "slip", content := none,
        error := some "Slip transaction not found", metadata := none, address := address }

def resolveFeedAddress (k : Kernel) (address : String) (parsed : ParsedAddress) :
    ResolutionResult :=
  match lookupKV k.feeds parsed.hash with
  | some f =>
      { state := "RESOLVED", type := "feed", content := some (.jsonFeed f), error := none,
        metadata := some (.feedMeta f), address := address }
  | none =>
      { state := "UNKNOWN", type := "feed", content := none, error := some "Feed not found",
        metadata := none, address := address }

def resolveChannelAddress (k : Kernel) (address : String) (parsed : ParsedAddress) :
    ResolutionResult :=
  match lookupKV k.channels parsed.hash with
  | some c =>
      { state := "RESOLVED", type := "channel", content := some (.jsonChannel c), error := none,
        metadata := some (.channelMeta c), address := address }
  | none =>
      { state := "UNKNOWN", type := "channel", content := none,
        error := some "Channel not found", metadata := none, address := address }

/-- Models `resolveAddress`: parse first (`INVALID` with no pulse on
failure), then emit one `ADDRESS_RESOLVE` pulse for the attempt, then
dispatch to the pure per-scheme resolver. -/
def resolveAddress (hpA : Pulse → String) (k : Kernel) (address : String) (tsPulse : String) :
    ResolutionResult × Kernel :=
  match parseAddress address with
  | none =>
      ({ state := "INVALID", type := "unknown", content := none,
         error := some "Malformed address format", metadata := none, address := address }, k)
  | some parsed =>
      let k1 := (emitPulseCore hpA k "ADDRESS_RESOLVE"
        (.addressResolve (takeChars address 40) parsed.scheme) tsPulse).2
      let r :=
        if parsed.scheme = "xhe" ∨ parsed.scheme = "ipfs" then
          resolveContentAddress k1 address parsed
        else if parsed.scheme = "did:xhe" then resolveIdentityAddress k1 address parsed
        else if parsed.scheme = "pulse" then resolvePulseAddress k1 address parsed
        else if parsed.scheme = "slip" then resolveSlipAddress k1 address parsed
        else if parsed.scheme = "feed" then resolveFeedAddress k1 address parsed
        else if parsed.scheme = "channel" then resolveChannelAddress k1 address parsed
        else
          { state := "UNKNOWN", type := parsed.scheme, content := none,
            error := some "Unknown URI scheme", metadata := none, address := address }
      (r, k1)

-- ============================================
-- Address index maintenance
-- ============================================

/-- Models `clearAddressIndex` (clears only the index, not the content store). -/
def clearAddressIndex (k : Kernel) : Kernel := saveIndex k []

-- ============================================
-- Social system
-- ============================================

/-- Models `follow(did)`: self-follow throws; an already-followed did is a
silent no-op (checked before the blocked check); a blocked did throws;
otherwise append, persist, emit `FOLLOW`. -/
def follow (hpA : Pulse → String) (k : Kernel) (did : String) (tsPulse : String) :
    Except JsError (Option SocialGraph × Kernel) :=
  if did = k.identity.did then .error (.thrown "Cannot follow self")
  else if did ∈ k.socialGraph.following then .ok (none, k)
  else if did ∈ k.socialGraph.blocked then .error (.thrown "Cannot follow blocked identity")
  else
    let sg := { k.socialGraph with following := k.socialGraph.following ++ [did] }
    let k1 := saveSocial k sg
    let k2 := (emitPulseCore hpA k1 "FOLLOW" (.followTarget did) tsPulse).2
    .ok (some k2.socialGraph, k2)

/-- Models `unfollow(did)`: filter out, persist, always emit `UNFOLLOW`. -/
def unfollow (hpA : Pulse → String) (k : Kernel) (did : String) (tsPulse : String) :
    SocialGraph × Kernel :=
  let sg := { k.socialGraph with
              following := k.socialGraph.following.filter (fun d => d ≠ did) }
  let k1 := saveSocial k sg
  let k2 := (emitPulseCore hpA k1 "UNFOLLOW" (.unfollowTarget did) tsPulse).2
  (k2.socialGraph, k2)

structure PostOracle where
  postId : String
  ts : String
  tsPulse : String
deriving DecidableEq, Repr

/-- Models `createPost`: store content (with `postMeta`), prepend to the
personal feed (created on demand), prepend to the named channel when it
exists, emit one pulse whose type prefers reply over repost over create. -/
def createPost (hpA : Pulse → String) (k : Kernel) (content : String)
    (replyTo repostOf channel : Option String) (o : PostOracle) :
    Except JsError (Post × Kernel) :=
  if content = "" then .error (.thrown "Post content required")
  else
    let hash := sha256 content
    let postId := o.postId
    let ts := o.ts
    let post : Post :=
      { id := postId, type := "POST", content := content, hash := hash,
        author := k.identity.did, timestamp := ts, replyTo := jsOrNull replyTo,
        repostOf := jsOrNull repostOf, channel := jsOrNull channel,
        address := "xhe://" ++ hash }
    let k1 := saveContent k (setKV k.contentStore hash
      { content := content, timestamp := ts, author := k.identity.did, scheme := "xhe",
        postMeta := some { id := postId, type := "POST" } })
    let feedId := "personal_" ++ sliceChars k1.identity.did 8 16
    let feed0 :=
      match lookupKV k1.feeds feedId with
      | some f => f
      | none => { id := feedId, owner := k1.identity.did, posts := [], created := ts }
    let k2 := saveFeeds k1 (setKV k1.feeds feedId { feed0 with posts := post :: feed0.posts })
    let k3 :=
      match jsOrNull channel with
      | some ch =>
          match lookupKV k2.channels ch with
          | some c => saveChannels k2 (setKV k2.channels ch { c with posts := post :: c.posts })
          | none => k2
      | none => k2
    let pulseType :=
      if (jsOrNull replyTo).isSome then "POST_REPLY"
      else if (jsOrNull repostOf).isSome then "POST_REPOST"
      else "POST_CREATE"
    let k4 := (emitPulseCore hpA k3 pulseType
      (.postCreate postId (takeChars hash 16) (takeChars content 50)) o.tsPulse).2
    .ok (post, k4)

structure ChannelOracle where
  channelId : String
  ts : String
  tsPulse : String
deriving DecidableEq, Repr

/-- Models `createChannel` (always succeeds; owner is the sole initial
member). -/
def createChannel (hpA : Pulse → String) (k : Kernel) (name description : String)
    (o : ChannelOracle) : Channel × Kernel :=
  let channel : Channel :=
    { id := o.channelId, name := name, description := description, owner := k.identity.did,
      created := o.ts, posts := [], members := [k.identity.did],
      address := "channel://" ++ o.channelId }
  let k1 := saveChannels k (setKV k.channels o.channelId channel)
  let k2 := (emitPulseCore hpA k1 "CHANNEL_CREATE" (.channelCreate o.channelId name) o.tsPulse).2
  (channel, k2)

-- ============================================
-- Export / import / reset
-- ============================================

/-- The export snapshot (v2); the v1 legacy shape is an `entries`-only
object, hence the optional `entries` field read by the importer. -/
structure Snapshot where
  version : Int
  exported : String
  kernelMeta : Option KernelMeta
  identity : Option Identity
  identityHistory : Option (List ArchivedIdentity)
  pulseSequence : Option Nat
  contentStore : Option (List (String × ContentEntry))
  pulseStore : Option (List (String × StoredPulse))
  addressIndex : Option (List (String × IndexEntry))
  slipLedger : Option Ledger
  socialGraph : Option SocialGraph
  feeds : Option (List (String × Feed))
  channels : Option (List (String × Channel))
  entries : Option (List (String × IndexEntry))
deriving DecidableEq, Repr

/-- Models `exportKernelState` (JSON serialization abstracted to the
structured snapshot). -/
def exportKernelState (k : Kernel) (tsExported : String) : Snapshot :=
  { version := 2, exported := tsExported, kernelMeta := some k.kernelMeta,
    identity := some k.identity, identityHistory := some k.identityHistory,
    pulseSequence := some k.pulseSequence, contentStore := some k.contentStore,
    pulseStore := some k.pulseStore, addressIndex := some k.addressIndex,
    slipLedger := some k.slipLedger, socialGraph := some k.socialGraph,
    feeds := some k.feeds, channels := some k.channels, entries := none }

structure ImportResult where
  imported : Nat
  migrated : Bool
  errors : List String
deriving DecidableEq, Repr

/-- Keep-existing/add-missing merge, counting the entries actually added. -/
def mergeCount {V : Type} (target : List (String × V)) (src : List (String × V)) :
    List (String × V) × Nat :=
  src.foldl
    (fun acc p =>
      match lookupKV acc.1 p.1 with
      | none => (setKV acc.1 p.1 p.2, acc.2 + 1)
      | some _ => acc)
    (target, 0)

/-- `Object.assign` merge used by the v1 migration path (incoming wins). -/
def mergeAssign {V : Type} (target : List (String × V)) (src : List (String × V)) :
    List (String × V) :=
  src.foldl (fun m p => setKV m p.1 p.2) target

/-- Models `importKernelState`.  A non-v2 snapshot that carries an
`entries` map merges only the address index (overwrite semantics) and
reports `migrated`; otherwise the content store, address index and pulse
store are merged with keep-existing/add-missing semantics, counting only
the content entries added. -/
def importKernelState (k : Kernel) (data : Snapshot) : ImportResult × Kernel :=
  match (if data.version ≠ 2 then data.entries else none) with
  | some es =>
      ({ imported := es.length, migrated := true, errors := [] },
       saveIndex k (mergeAssign k.addressIndex es))
  | none =>
      let k1 :=
        match data.contentStore with
        | some src => saveContent k (mergeCount k.contentStore src).1
        | none => k
      let cnt :=
        match data.contentStore with
        | some src => (mergeCount k.contentStore src).2
        | none => 0
      let k2 :=
        match data.addressIndex with
        | some src => saveIndex k1 (mergeCount k1.addressIndex src).1
        | none => k1
      let k3 :=
        match data.pulseStore with
        | some src => savePulses k2 (mergeCount k2.pulseStore src).1
        | none => k2
      ({ imported := cnt, migrated := false, errors := [] }, k3)

structure ResetOracle where
  tsPayload : String
  tsPulse : String
  idHex : String
  keyHex : String
  tsIdentity : String
deriving DecidableEq, Repr

/-- Models `resetKernel`: emit (and persist) the `KERNEL_RESET` pulse, then
remove every durable key (keeping identity and history when
`preserveIdentity`), reinitialize the in-memory stores to empty, and —
unless identity is preserved — clear history and create a fresh identity
(with its genesis grant).  The in-memory `kernelMeta` is left as is. -/
def resetKernel (hpA : Pulse → String) (k : Kernel) (preserveIdentity : Bool)
    (o : ResetOracle) : Kernel :=
  let k1 := (emitPulseCore hpA k "KERNEL_RESET"
    (.kernelReset preserveIdentity o.tsPayload) o.tsPulse).2
  let st := k1.store
  let st2 : Store :=
    { kernelMeta := none,
      identity := if preserveIdentity then st.identity else none,
      identityHistory := if preserveIdentity then st.identityHistory else none,
      contentStore := none, pulseStore := none, pulseSequence := none, addressIndex := none,
      slipLedger := none, socialGraph := none, feeds := none, channels := none }
  let k2 : Kernel :=
    { k1 with
      store := st2, pulseSequence := 0, contentStore := [], pulseStore := [],
      addressIndex := [], slipLedger := { balances := [], transactions := [] },
      socialGraph := { following := [], followers := [], blocked := [] },
      feeds := [], channels := [] }
  if preserveIdentity then k2
  else
    let k3 := { k2 with identityHistory := [] }
    (createIdentityK k3 o.idHex o.keyHex o.tsIdentity).2

-- ============================================
-- Invariants and reachability
-- ============================================

/-- The sequence number carried by a stored pulse (its padded decimal
`sequence` field read back as a number). -/
def pulseSeqNat (sp : StoredPulse) : Nat := valChars sp.sequence.data

/-- Every stored pulse has a positive sequence number bounded by the
persisted counter, a `padSeq`-shaped `sequence` field, and the
`sequence/hash` key shape. -/
def SeqBound (k : Kernel) : Prop :=
  ∀ p ∈ k.pulseStore, 1 ≤ pulseSeqNat p.2 ∧ pulseSeqNat p.2 ≤ k.pulseSequence ∧
    p.2.sequence = padSeq (pulseSeqNat p.2) ∧ p.1 = p.2.sequence ++ "/" ++ p.2.hash

def pulseSeqList (k : Kernel) : List Nat := k.pulseStore.map (fun p => pulseSeqNat p.2)

/-- Ledger defaults used by `loadState`. -/
def emptyLedger : Ledger := { balances := [], transactions := [] }

def emptySocial : SocialGraph := { following := [], followers := [], blocked := [] }

/-- Sum of the `MINT` transaction amounts recorded in the log. -/
def mintedSum (txs : List Transaction) : Int :=
  (txs.map (fun t => if t.type = "MINT" then t.amount else 0)).sum

/-- The inductive invariant: the durable store mirrors the in-memory state
(up to the load defaults), stored pulse sequences are strictly increasing
and bounded by the counter, balances are nonnegative, the current did is
nonempty, and the ledger conserves `100 * genesisGrants + mintedSum`. -/
structure GoodState (k : Kernel) (g : Nat) : Prop where
  storeIdentity : k.store.identity = some k.identity
  storeSeq : k.store.pulseSequence.getD 0 = k.pulseSequence
  storePulses : k.store.pulseStore.getD [] = k.pulseStore
  storeLedger : k.store.slipLedger.getD emptyLedger = k.slipLedger
  storeHistory : k.store.identityHistory.getD [] = k.identityHistory
  storeContent : k.store.contentStore.getD [] = k.contentStore
  storeIndex : k.store.addressIndex.getD [] = k.addressIndex
  storeSocial : k.store.socialGraph.getD emptySocial = k.socialGraph
  storeFeeds : k.store.feeds.getD [] = k.feeds
  storeChannels : k.store.channels.getD [] = k.channels
  chain : List.Chain' (· < ·) (pulseSeqList k)
  seqBound : SeqBound k
  nonneg : ∀ p ∈ k.slipLedger.balances, 0 ≤ p.2
  didNe : k.identity.did ≠ ""
  conserve : sumVals k.slipLedger.balances = 100 * (g : Int) + mintedSum k.slipLedger.transactions

/-- Whether a boot against store `st` fires the genesis grant (the stored
balance of the stored identity is falsy). -/
def bootGrant (st : Store) : Nat :=
  match st.identity with
  | some i => if jsFalsyBal (lookupKV (st.slipLedger.getD emptyLedger).balances i.did) then 1 else 0
  | none => 0

/-- Whether regeneration with fresh random suffix `idHex` fires the genesis
grant for the new did. -/
def regenGrant (k : Kernel) (idHex : String) : Nat :=
  if jsFalsyBal (lookupKV k.slipLedger.balances ("did:xhe:" ++ idHex)) then 1 else 0

/-- Kernel states reachable from a fresh durable store, instrumented with
the number `g` of genesis grants recorded in the current ledger.  The base
case models what actually happens on a fresh store: the first construction
throws (persisting metadata and identity) and the retry construction
succeeds.  A `boot` step re-runs the constructor against the current
durable store (a restart).  `importKernelState` is deliberately not a step:
it merges foreign pulses verbatim and so does not preserve the local
sequence discipline. -/
inductive ReachG (hpA hpS : Pulse → String) : Kernel → Nat → Prop where
  | fresh (o o2 : InitOracle) (e : JsError) (st1 : Store) (k : Kernel)
      (h1 : initKernel hpS freshStore o = .error (e, st1))
      (h2 : initKernel hpS st1 o2 = .ok k) : ReachG hpA hpS k 1
  | boot (k : Kernel) (g : Nat) (o : InitOracle) (k2 : Kernel)
      (h : ReachG hpA hpS k g) (h2 : initKernel hpS k.store o = .ok k2) :
      ReachG hpA hpS k2 (g + bootGrant k.store)
  | mint (k : Kernel) (g : Nat) (amount : Int) (reason : String) (o : TxOracle)
      (tx : Transaction) (k2 : Kernel) (h : ReachG hpA hpS k g)
      (h2 : mintSlips hpA k amount reason o = .ok (tx, k2)) : ReachG hpA hpS k2 g
  | transfer (k : Kernel) (g : Nat) (toDid : String) (amount : Int) (memo : String)
      (o : TxOracle) (tx : Transaction) (k2 : Kernel) (h : ReachG hpA hpS k g)
      (h2 : transferSlips hpA k toDid amount memo o = .ok (tx, k2)) : ReachG hpA hpS k2 g
  | regen (k : Kernel) (g : Nat) (o : RegenOracle) (h : ReachG hpA hpS k g) :
      ReachG hpA hpS (regenerateIdentity hpA k o).2 (g + regenGrant k o.idHex)
  | resetOp (k : Kernel) (g : Nat) (preserve : Bool) (o : ResetOracle)
      (h : ReachG hpA hpS k g) :
      ReachG hpA hpS (resetKernel hpA k preserve o) (if preserve then 0 else 1)
  | genAddr (k : Kernel) (g : Nat) (content scheme : String) (optSeq : Option String)
      (o : GenOracle) (r : GenResult) (k2 : Kernel) (h : ReachG hpA hpS k g)
      (h2 : generateAddress hpA k content scheme optSeq o = .ok (r, k2)) : ReachG hpA hpS k2 g
  | resolveOp (k : Kernel) (g : Nat) (address tsPulse : String) (h : ReachG hpA hpS k g) :
      ReachG hpA hpS (resolveAddress hpA k address tsPulse).2 g
  | followOp (k : Kernel) (g : Nat) (did tsPulse : String) (r : Option SocialGraph)
      (k2 : Kernel) (h : ReachG hpA hpS k g)
      (h2 : follow hpA k did tsPulse = .ok (r, k2)) : ReachG hpA hpS k2 g
  | unfollowOp (k : Kernel) (g : Nat) (did tsPulse : String) (h : ReachG hpA hpS k g) :
      ReachG hpA hpS (unfollow hpA k did tsPulse).2 g
  | postOp (k : Kernel) (g : Nat) (content : String) (replyTo repostOf channel : Option String)
      (o : PostOracle) (p : Post) (k2 : Kernel) (h : ReachG hpA hpS k g)
      (h2 : createPost hpA k content replyTo repostOf channel o = .ok (p, k2)) :
      ReachG hpA hpS k2 g
  | channelOp (k : Kernel) (g : Nat) (name description : String) (o : ChannelOracle)
      (h : ReachG hpA hpS k g) :
      ReachG hpA hpS (createChannel hpA k name description o).2 g
  | clearIdx (k : Kernel) (g : Nat) (h : ReachG hpA hpS k g) :
      ReachG hpA hpS (clearAddressIndex k) g

-- ============================================
-- Concrete demonstration values (used by witnesses and counterexamples)
-- ============================================

/-- Concrete stand-in for the asynchronous pulse hash. -/
def hpA0 : Pulse → String := fun _ => "HA"

/-- Concrete stand-in for the synchronous bootstrap pulse hash. -/
def hpS0 : Pulse → String := fun _ => "HS"

def oInit1 : InitOracle :=
  { tsCreated := "t1", tsActive := "t2", tsIdentity := "t3", tsInitPulse := "t4",
    idHex := "aa", keyHex := "bb" }

def oInit2 : InitOracle :=
  { tsCreated := "t5", tsActive := "t6", tsIdentity := "t7", tsInitPulse := "t8",
    idHex := "cc", keyHex := "dd" }

def kernelFallback : Kernel :=
  { store := freshStore,
    kernelMeta := { version := "1.0.0", created := "", lastActive := "" },
    pulseSequence := 0,
    identity := { did := "did:xhe:zz", publicKey := "", created := "", version := 1 },
    identityHistory := [], contentStore := [], pulseStore := [], addressIndex := [],
    slipLedger := { balances := [], transactions := [] },
    socialGraph := { following := [], followers := [], blocked := [] },
    feeds := [], channels := [] }

def demoErr : JsError :=
  match initKernel hpS0 freshStore oInit1 with
  | .error (e, _) => e
  | .ok _ => .thrown ""

def demoStore1 : Store :=
  match initKernel hpS0 freshStore oInit1 with
  | .error (_, st) => st
  | .ok _ => freshStore

/-- The kernel state actually obtained on a fresh durable store: the first
construction throws (persisting metadata and identity) and the retry
succeeds. -/
def demoK0 : Kernel :=
  match initKernel hpS0 demoStore1 oInit2 with
  | .ok k => k
  | .error _ => kernelFallback

def oGen0 : GenOracle := { ts := "t9", tsPulse := "t10" }

def demoGen1 : GenResult :=
  match generateAddress hpA0 demoK0 "a" "pulse" none oGen0 with
  | .ok (r, _) => r
  | .error _ => { address := "", hash := "", timestamp := "", pulseId := "" }

/-- `demoK0` after one pulse-scheme `generateAddress` call. -/
def demoK1 : Kernel :=
  match generateAddress hpA0 demoK0 "a" "pulse" none oGen0 with
  | .ok (_, k) => k
  | .error _ => kernelFallback

def oGenA : GenOracle := { ts := "T1", tsPulse := "T1p" }

def oGenB : GenOracle := { ts := "T2", tsPulse := "T2p" }

/-- `demoK0` after one content-scheme `generateAddress` call at time `T1`. -/
def demoC6a : Kernel :=
  match generateAddress hpA0 demoK0 "a" "xhe" none oGenA with
  | .ok (_, k) => k
  | .error _ => kernelFallback

/-- `demoC6a` after a second identical call at time `T2`. -/
def demoC6b : Kernel :=
  match generateAddress hpA0 demoC6a "a" "xhe" none oGenB with
  | .ok (_, k) => k
  | .error _ => kernelFallback

def kC7 : Kernel :=
  { kernelFallback with
    socialGraph := { following := ["did:xhe:ff"], followers := [], blocked := ["did:xhe:bb"] } }

def oReset0 : ResetOracle :=
  { tsPayload := "r1", tsPulse := "r2", idHex := "ee", keyHex := "ff", tsIdentity := "r3" }

def kC10 : Kernel :=
  { kernelFallback with
    slipLedger := { balances := [("did:xhe:zz", 50), ("", 30)], transactions := [] } }

-- ============================================
-- Theorems
-- ============================================

example : sha256 "abc" = "ba7816bf8f01cfea414140de5dae2223b00361a396177a9cb410ff61f20015ad" := by decide

example : sha256 "hello world" = "b94d27b9934d3e08a52e52d7da7dabfac484efe37a5380ee9088f7ace2efcde9" := by decide

theorem lookupKV_setKV_self {V : Type} (m : List (String × V)) (k : String) (v : V) :
    lookupKV (setKV m k v) k = some v := by
  induction m with
  | nil => simp [setKV, lookupKV]
  | cons p rest ih =>
      obtain ⟨k1, v1⟩ := p
      by_cases h : k1 = k <;> simp [setKV, lookupKV, h, ih]

theorem lookupKV_setKV_ne {V : Type} (m : List (String × V)) (k j : String) (v : V)
    (h : k ≠ j) : lookupKV (setKV m k v) j = lookupKV m j := by
  induction m with
  | nil => simp [setKV, lookupKV, h]
  | cons p rest ih =>
      obtain ⟨k1, v1⟩ := p
      by_cases h1 : k1 = k
      · subst h1
        simp [setKV, lookupKV, h]
      · simp [setKV, lookupKV, h1, ih]

theorem setKV_of_lookup_none {V : Type} (m : List (String × V)) (k : String) (v : V)
    (h : lookupKV m k = none) : setKV m k v = m ++ [(k, v)] := by
  induction m with
  | nil => simp [setKV]
  | cons p rest ih =>
      obtain ⟨k1, v1⟩ := p
      by_cases h1 : k1 = k
      · simp [lookupKV, h1] at h
      · simp [lookupKV, h1] at h
        simp [setKV, h1, ih h]

theorem mem_setKV {V : Type} (m : List (String × V)) (k : String) (v : V) (p : String × V)
    (h : p ∈ setKV m k v) : p = (k, v) ∨ p ∈ m := by
  induction m with
  | nil => simpa [setKV] using h
  | cons q rest ih =>
      obtain ⟨k1, v1⟩ := q
      by_cases h1 : k1 = k
      · simp [setKV, h1] at h
        rcases h with h | h
        · exact Or.inl h
        · exact Or.inr (List.mem_cons_of_mem _ h)
      · simp [setKV, h1] at h
        rcases h with h | h
        · exact Or.inr (by simp [h])
        · rcases ih h with h2 | h2
          · exact Or.inl h2
          · exact Or.inr (List.mem_cons_of_mem _ h2)

theorem lookupKV_mem {V : Type} (m : List (String × V)) (k : String) (v : V)
    (h : lookupKV m k = some v) : (k, v) ∈ m := by
  induction m with
  | nil => simp [lookupKV] at h
  | cons q rest ih =>
      obtain ⟨k1, v1⟩ := q
      by_cases h1 : k1 = k
      · subst h1
        simp [lookupKV] at h
        simp [h]
      · simp [lookupKV, h1] at h
        exact List.mem_cons_of_mem _ (ih h)

theorem sumVals_setKV (m : List (String × Int)) (k : String) (v : Int) :
    sumVals (setKV m k v) = sumVals m + v - ((lookupKV m k).getD 0) := by
  induction m with
  | nil => simp [setKV, sumVals, lookupKV]
  | cons q rest ih =>
      obtain ⟨k1, v1⟩ := q
      by_cases h1 : k1 = k
      · simp [setKV, sumVals, lookupKV, h1]
        ring
      · simp [setKV, sumVals, lookupKV, h1] at ih ⊢
        omega

theorem decDigits_lt10 (f : Nat) : ∀ n d, d ∈ decDigits f n → d < 10 := by
  induction f with
  | zero => intro n d h; simp [decDigits] at h
  | succ f ih =>
      intro n d h
      by_cases hn : n < 10
      · simp [decDigits, hn] at h
        omega
      · simp [decDigits, hn] at h
        rcases h with h | h
        · exact ih _ _ h
        · omega

theorem val10_decDigits (f : Nat) : ∀ n, n ≤ f → ∀ a,
    val10 a (decDigits f n) = a * 10 ^ (decDigits f n).length + n := by
  induction f with
  | zero => intro n hn a; interval_cases n; simp [decDigits, val10]
  | succ f ih =>
      intro n hn a
      by_cases h : n < 10
      · simp [decDigits, h, val10]
      · have hdiv : n / 10 ≤ f := by
          have : n / 10 < n := Nat.div_lt_self (by omega) (by omega)
          omega
        have := ih (n / 10) hdiv a
        simp only [decDigits, h, if_false, val10, List.foldl_append] at *
        rw [this]
        simp [List.length_append]
        have h10 : a * 10 ^ (decDigits f (n / 10)).length * 10 =
            a * (10 ^ (decDigits f (n / 10)).length * 10) := by ring
        rw [Nat.pow_succ]
        omega

theorem charVal_digitChar (d : Nat) (h : d < 10) : charVal (digitChar d) = d := by
  interval_cases d <;> decide

theorem digitChar_ne_slash (d : Nat) (h : d < 10) : digitChar d ≠ '/' := by
  interval_cases d <;> decide

theorem foldl_charVal_map (ds : List Nat) : (∀ d ∈ ds, d < 10) → ∀ a : Nat,
    List.foldl (fun a c => a * 10 + charVal c) a (ds.map digitChar) = val10 a ds := by
  induction ds with
  | nil => intro _ a; simp [val10]
  | cons d rest ih =>
      intro hds a
      have hd : d < 10 := hds d (by simp)
      have hrest : ∀ x ∈ rest, x < 10 := fun x hx => hds x (by simp [hx])
      simp only [List.map_cons, List.foldl_cons, charVal_digitChar d hd, val10]
      exact ih hrest (a * 10 + d)

theorem valChars_decChars (n : Nat) : valChars (decChars n) = n := by
  unfold valChars decChars
  rw [foldl_charVal_map _ (decDigits_lt10 _ _) 0]
  have := val10_decDigits (n + 1) n (by omega) 0
  simpa using this

theorem foldl_charVal_zeros (k : Nat) :
    List.foldl (fun a c => a * 10 + charVal c) 0 (List.replicate k '0') = 0 := by
  induction k with
  | zero => simp
  | succ k ih => simpa [List.replicate_succ, charVal] using ih

theorem valChars_padSeqChars (n : Nat) : valChars (padSeqChars n) = n := by
  unfold padSeqChars
  unfold valChars
  rw [List.foldl_append, foldl_charVal_zeros]
  exact valChars_decChars n

theorem padSeqChars_ne_slash (n : Nat) : ∀ c ∈ padSeqChars n, c ≠ '/' := by
  intro c hc
  unfold padSeqChars at hc
  rcases List.mem_append.mp hc with h | h
  · have := List.eq_of_mem_replicate h
    subst this
    decide
  · unfold decChars at hc h
    rcases List.mem_map.mp h with ⟨d, hd, hdc⟩
    subst hdc
    exact digitChar_ne_slash d (decDigits_lt10 _ _ _ hd)

theorem noSlash_append_inj (xs : List Char) : ∀ ys t u : List Char,
    (∀ c ∈ xs, c ≠ '/') → (∀ c ∈ ys, c ≠ '/') →
    xs ++ '/' :: t = ys ++ '/' :: u → xs = ys ∧ t = u := by
  induction xs with
  | nil =>
      intro ys t u _ hy h
      cases ys with
      | nil => simpa using h
      | cons y ys =>
          simp at h
          exact absurd h.1.symm (hy y (by simp))
  | cons x xs ih =>
      intro ys t u hx hy h
      cases ys with
      | nil =>
          simp at h
          exact absurd h.1 (hx x (by simp))
      | cons y ys =>
          simp at h
          obtain ⟨hxy, hrest⟩ := h
          have := ih ys t u (fun c hc => hx c (by simp [hc])) (fun c hc => hy c (by simp [hc])) hrest
          exact ⟨by simp [hxy, this.1], this.2⟩

theorem stringDataAppend (a b : String) : (a ++ b).data = a.data ++ b.data := by
  cases a; cases b; rfl

/-- The pulse-store key `padSeq a ++ "/" ++ h` determines the sequence number:
decimal digits contain no slash, so the prefix before the first slash is the
padded sequence string, and reading it back as a number recovers it. -/
theorem pulseKey_inj (a b : Nat) (x y : String)
    (h : padSeq a ++ "/" ++ x = padSeq b ++ "/" ++ y) : a = b := by
  have hd : (padSeq a ++ "/" ++ x).data = (padSeq b ++ "/" ++ y).data := by rw [h]
  rw [stringDataAppend, stringDataAppend, stringDataAppend, stringDataAppend] at hd
  have hslash : ("/" : String).data = ['/'] := rfl
  have ha : (padSeq a).data = padSeqChars a := rfl
  have hb : (padSeq b).data = padSeqChars b := rfl
  rw [hslash, ha, hb] at hd
  simp only [List.append_assoc, List.singleton_append] at hd
  have := noSlash_append_inj (padSeqChars a) (padSeqChars b) x.data y.data
    (padSeqChars_ne_slash a) (padSeqChars_ne_slash b) hd
  have hv : valChars (padSeqChars a) = valChars (padSeqChars b) := by rw [this.1]
  rwa [valChars_padSeqChars, valChars_padSeqChars] at hv

-- ============================================
-- Pulse emission lemmas
-- ============================================

theorem valChars_padSeq (n : Nat) : valChars (padSeq n).data = n := by
  have : (padSeq n).data = padSeqChars n := rfl
  rw [this, valChars_padSeqChars]

theorem chain_append_lt (l : List Nat) (n : Nat) (hc : List.Chain' (· < ·) l)
    (hb : ∀ x ∈ l, x < n) : List.Chain' (· < ·) (l ++ [n]) := by
  rw [List.chain'_append]
  refine ⟨hc, List.chain'_singleton n, ?_⟩
  intro x hx y hy
  have hxl : x ∈ l := by
    obtain ⟨hne, hxe⟩ := List.mem_getLast?_eq_getLast hx
    rw [hxe]
    exact List.getLast_mem hne
  have hyn : n = y := by simpa using hy
  rw [← hyn]
  exact hb x hxl

/-- A key built from a sequence number above the counter is absent from the
pulse store. -/
theorem pulseKey_fresh (k : Kernel) (hB : SeqBound k) (n : Nat) (hn : k.pulseSequence < n)
    (h : String) : lookupKV k.pulseStore (padSeq n ++ "/" ++ h) = none := by
  cases hl : lookupKV k.pulseStore (padSeq n ++ "/" ++ h) with
  | none => rfl
  | some sp =>
      exfalso
      have hmem := lookupKV_mem _ _ _ hl
      obtain ⟨h1, h2, h3, h4⟩ := hB _ hmem
      dsimp only at h1 h2 h3 h4
      have hkey : padSeq n ++ "/" ++ h = padSeq (pulseSeqNat sp) ++ "/" ++ sp.hash := by
        rw [← h3]
        exact h4
      have := pulseKey_inj _ _ _ _ hkey
      omega

theorem appendPulse_shape (hashFn : Pulse → String) (k : Kernel) (ty : String) (pl : Payload)
    (ts author version : String) (hB : SeqBound k) :
    (appendPulse hashFn k ty pl ts author version).2.pulseStore =
      k.pulseStore ++ [((appendPulse hashFn k ty pl ts author version).1.pulseId,
                        (appendPulse hashFn k ty pl ts author version).1.pulse)] := by
  have hfresh := pulseKey_fresh k hB (k.pulseSequence + 1) (by omega)
  simp only [appendPulse, saveSeq, savePulses]
  exact setKV_of_lookup_none _ _ _ (hfresh _)

/-- `appendPulse` preserves the inductive invariant: it only touches the
pulse counter and the pulse store, appending one record whose sequence is
the new counter value. -/
theorem GoodState.appendP (hashFn : Pulse → String) (k : Kernel) (g : Nat) (ty : String)
    (pl : Payload) (ts author version : String) (hg : GoodState k g) :
    GoodState (appendPulse hashFn k ty pl ts author version).2 g := by
  have hfresh := pulseKey_fresh k hg.seqBound (k.pulseSequence + 1) (by omega)
  have hset : ∀ sp : StoredPulse,
      setKV k.pulseStore (padSeq (k.pulseSequence + 1) ++ "/" ++ sp.hash) sp =
        k.pulseStore ++ [(padSeq (k.pulseSequence + 1) ++ "/" ++ sp.hash, sp)] :=
    fun sp => setKV_of_lookup_none _ _ _ (hfresh sp.hash)
  constructor
  case storeIdentity => simpa [appendPulse, saveSeq, savePulses] using hg.storeIdentity
  case storeSeq => simp [appendPulse, saveSeq, savePulses]
  case storePulses => simp [appendPulse, saveSeq, savePulses]
  case storeLedger => simpa [appendPulse, saveSeq, savePulses] using hg.storeLedger
  case storeHistory => simpa [appendPulse, saveSeq, savePulses] using hg.storeHistory
  case storeContent => simpa [appendPulse, saveSeq, savePulses] using hg.storeContent
  case storeIndex => simpa [appendPulse, saveSeq, savePulses] using hg.storeIndex
  case storeSocial => simpa [appendPulse, saveSeq, savePulses] using hg.storeSocial
  case storeFeeds => simpa [appendPulse, saveSeq, savePulses] using hg.storeFeeds
  case storeChannels => simpa [appendPulse, saveSeq, savePulses] using hg.storeChannels
  case chain =>
      simp only [appendPulse, saveSeq, savePulses, pulseSeqList]
      rw [setKV_of_lookup_none _ _ _ (hfresh _)]
      rw [List.map_append]
      apply chain_append_lt _ _ hg.chain
      intro x hx
      simp only [pulseSeqList, List.mem_map] at hx
      obtain ⟨p, hp, hpx⟩ := hx
      have hb := (hg.seqBound p hp).2.1
      have hxb : x ≤ k.pulseSequence := by rw [← hpx]; exact hb
      simp only [pulseSeqNat, valChars_padSeq]
      omega
  case seqBound =>
      simp only [SeqBound, appendPulse, saveSeq, savePulses]
      rw [setKV_of_lookup_none _ _ _ (hfresh _)]
      intro p hp
      rcases List.mem_append.mp hp with h | h
      · obtain ⟨h1, h2, h3, h4⟩ := hg.seqBound p h
        exact ⟨h1, by omega, h3, h4⟩
      · simp only [List.mem_singleton] at h
        subst h
        refine ⟨?_, ?_, ?_, ?_⟩ <;> simp [pulseSeqNat, valChars_padSeq]
  case nonneg => simpa [appendPulse, saveSeq, savePulses] using hg.nonneg
  case didNe => simpa [appendPulse, saveSeq, savePulses] using hg.didNe
  case conserve => simpa [appendPulse, saveSeq, savePulses] using hg.conserve

theorem GoodState.emitCore (hashFn : Pulse → String) (k : Kernel) (g : Nat) (ty : String)
    (pl : Payload) (ts : String) (hg : GoodState k g) :
    GoodState (emitPulseCore hashFn k ty pl ts).2 g := by
  unfold emitPulseCore
  exact hg.appendP hashFn k g ty pl ts _ _

theorem GoodState.emitSync (hashFn : Pulse → String) (k : Kernel) (g : Nat) (ty : String)
    (pl : Payload) (ts : String) (hg : GoodState k g) :
    GoodState (emitPulseSyncK hashFn k ty pl ts) g := by
  unfold emitPulseSyncK
  exact hg.appendP hashFn k g ty pl ts _ _

theorem GoodState.saveContentG (k : Kernel) (g : Nat) (c : List (String × ContentEntry))
    (hg : GoodState k g) : GoodState (saveContent k c) g := by
  constructor
  case storeIdentity => simpa [saveContent] using hg.storeIdentity
  case storeSeq => simpa [saveContent] using hg.storeSeq
  case storePulses => simpa [saveContent] using hg.storePulses
  case storeLedger => simpa [saveContent] using hg.storeLedger
  case storeHistory => simpa [saveContent] using hg.storeHistory
  case storeContent => simp [saveContent]
  case storeIndex => simpa [saveContent] using hg.storeIndex
  case storeSocial => simpa [saveContent] using hg.storeSocial
  case storeFeeds => simpa [saveContent] using hg.storeFeeds
  case storeChannels => simpa [saveContent] using hg.storeChannels
  case chain => simpa [saveContent, pulseSeqList] using hg.chain
  case seqBound =>
      intro p hp
      simp only [saveContent] at hp
      simpa [saveContent] using hg.seqBound p hp
  case nonneg =>
      intro p hp
      simp only [saveContent] at hp
      exact hg.nonneg p hp
  case didNe => simpa [saveContent] using hg.didNe
  case conserve => simpa [saveContent] using hg.conserve

theorem GoodState.saveIndexG (k : Kernel) (g : Nat) (a : List (String × IndexEntry))
    (hg : GoodState k g) : GoodState (saveIndex k a) g := by
  constructor
  case storeIdentity => simpa [saveIndex] using hg.storeIdentity
  case storeSeq => simpa [saveIndex] using hg.storeSeq
  case storePulses => simpa [saveIndex] using hg.storePulses
  case storeLedger => simpa [saveIndex] using hg.storeLedger
  case storeHistory => simpa [saveIndex] using hg.storeHistory
  case storeContent => simpa [saveIndex] using hg.storeContent
  case storeIndex => simp [saveIndex]
  case storeSocial => simpa [saveIndex] using hg.storeSocial
  case storeFeeds => simpa [saveIndex] using hg.storeFeeds
  case storeChannels => simpa [saveIndex] using hg.storeChannels
  case chain => simpa [saveIndex, pulseSeqList] using hg.chain
  case seqBound =>
      intro p hp
      simp only [saveIndex] at hp
      simpa [saveIndex] using hg.seqBound p hp
  case nonneg =>
      intro p hp
      simp only [saveIndex] at hp
      exact hg.nonneg p hp
  case didNe => simpa [saveIndex] using hg.didNe
  case conserve => simpa [saveIndex] using hg.conserve

theorem GoodState.saveSocialG (k : Kernel) (g : Nat) (s : SocialGraph)
    (hg : GoodState k g) : GoodState (saveSocial k s) g := by
  constructor
  case storeIdentity => simpa [saveSocial] using hg.storeIdentity
  case storeSeq => simpa [saveSocial] using hg.storeSeq
  case storePulses => simpa [saveSocial] using hg.storePulses
  case storeLedger => simpa [saveSocial] using hg.storeLedger
  case storeHistory => simpa [saveSocial] using hg.storeHistory
  case storeContent => simpa [saveSocial] using hg.storeContent
  case storeIndex => simpa [saveSocial] using hg.storeIndex
  case storeSocial => simp [saveSocial]
  case storeFeeds => simpa [saveSocial] using hg.storeFeeds
  case storeChannels => simpa [saveSocial] using hg.storeChannels
  case chain => simpa [saveSocial, pulseSeqList] using hg.chain
  case seqBound =>
      intro p hp
      simp only [saveSocial] at hp
      simpa [saveSocial] using hg.seqBound p hp
  case nonneg =>
      intro p hp
      simp only [saveSocial] at hp
      exact hg.nonneg p hp
  case didNe => simpa [saveSocial] using hg.didNe
  case conserve => simpa [saveSocial] using hg.conserve

theorem GoodState.saveFeedsG (k : Kernel) (g : Nat) (f : List (String × Feed))
    (hg : GoodState k g) : GoodState (saveFeeds k f) g := by
  constructor
  case storeIdentity => simpa [saveFeeds] using hg.storeIdentity
  case storeSeq => simpa [saveFeeds] using hg.storeSeq
  case storePulses => simpa [saveFeeds] using hg.storePulses
  case storeLedger => simpa [saveFeeds] using hg.storeLedger
  case storeHistory => simpa [saveFeeds] using hg.storeHistory
  case storeContent => simpa [saveFeeds] using hg.storeContent
  case storeIndex => simpa [saveFeeds] using hg.storeIndex
  case storeSocial => simpa [saveFeeds] using hg.storeSocial
  case storeFeeds => simp [saveFeeds]
  case storeChannels => simpa [saveFeeds] using hg.storeChannels
  case chain => simpa [saveFeeds, pulseSeqList] using hg.chain
  case seqBound =>
      intro p hp
      simp only [saveFeeds] at hp
      simpa [saveFeeds] using hg.seqBound p hp
  case nonneg =>
      intro p hp
      simp only [saveFeeds] at hp
      exact hg.nonneg p hp
  case didNe => simpa [saveFeeds] using hg.didNe
  case conserve => simpa [saveFeeds] using hg.conserve

theorem GoodState.saveChannelsG (k : Kernel) (g : Nat) (c : List (String × Channel))
    (hg : GoodState k g) : GoodState (saveChannels k c) g := by
  constructor
  case storeIdentity => simpa [saveChannels] using hg.storeIdentity
  case storeSeq => simpa [saveChannels] using hg.storeSeq
  case storePulses => simpa [saveChannels] using hg.storePulses
  case storeLedger => simpa [saveChannels] using hg.storeLedger
  case storeHistory => simpa [saveChannels] using hg.storeHistory
  case storeContent => simpa [saveChannels] using hg.storeContent
  case storeIndex => simpa [saveChannels] using hg.storeIndex
  case storeSocial => simpa [saveChannels] using hg.storeSocial
  case storeFeeds => simpa [saveChannels] using hg.storeFeeds
  case storeChannels => simp [saveChannels]
  case chain => simpa [saveChannels, pulseSeqList] using hg.chain
  case seqBound =>
      intro p hp
      simp only [saveChannels] at hp
      simpa [saveChannels] using hg.seqBound p hp
  case nonneg =>
      intro p hp
      simp only [saveChannels] at hp
      exact hg.nonneg p hp
  case didNe => simpa [saveChannels] using hg.didNe
  case conserve => simpa [saveChannels] using hg.conserve

theorem GoodState.saveHistoryG (k : Kernel) (g : Nat) (h : List ArchivedIdentity)
    (hg : GoodState k g) : GoodState (saveHistory k h) g := by
  constructor
  case storeIdentity => simpa [saveHistory] using hg.storeIdentity
  case storeSeq => simpa [saveHistory] using hg.storeSeq
  case storePulses => simpa [saveHistory] using hg.storePulses
  case storeLedger => simpa [saveHistory] using hg.storeLedger
  case storeHistory => simp [saveHistory]
  case storeContent => simpa [saveHistory] using hg.storeContent
  case storeIndex => simpa [saveHistory] using hg.storeIndex
  case storeSocial => simpa [saveHistory] using hg.storeSocial
  case storeFeeds => simpa [saveHistory] using hg.storeFeeds
  case storeChannels => simpa [saveHistory] using hg.storeChannels
  case chain => simpa [saveHistory, pulseSeqList] using hg.chain
  case seqBound =>
      intro p hp
      simp only [saveHistory] at hp
      simpa [saveHistory] using hg.seqBound p hp
  case nonneg =>
      intro p hp
      simp only [saveHistory] at hp
      exact hg.nonneg p hp
  case didNe => simpa [saveHistory] using hg.didNe
  case conserve => simpa [saveHistory] using hg.conserve

theorem balOr0_nonneg (bs : List (String × Int)) (hbs : ∀ p ∈ bs, 0 ≤ p.2) (d : String) :
    0 ≤ balOr0 (lookupKV bs d) := by
  cases h : lookupKV bs d with
  | none => simp [balOr0]
  | some v =>
      have := hbs _ (lookupKV_mem _ _ _ h)
      simpa [balOr0] using this

theorem nonneg_setKV (bs : List (String × Int)) (d : String) (v : Int) (hv : 0 ≤ v)
    (hbs : ∀ p ∈ bs, 0 ≤ p.2) : ∀ p ∈ setKV bs d v, 0 ≤ p.2 := by
  intro p hp
  rcases mem_setKV _ _ _ _ hp with h | h
  · rw [h]
    exact hv
  · exact hbs p h

theorem mintedSum_append (txs : List Transaction) (tx : Transaction) :
    mintedSum (txs ++ [tx]) = mintedSum txs + (if tx.type = "MINT" then tx.amount else 0) := by
  simp [mintedSum]

/-- Saving a new ledger preserves everything but the ledger clauses, which
are re-established from the supplied facts (possibly with a new grant
count). -/
theorem GoodState.saveLedgerG (k : Kernel) (g g2 : Nat) (L : Ledger) (hg : GoodState k g)
    (hnn : ∀ p ∈ L.balances, 0 ≤ p.2)
    (hcv : sumVals L.balances = 100 * (g2 : Int) + mintedSum L.transactions) :
    GoodState (saveLedger k L) g2 := by
  constructor
  case storeIdentity => simpa [saveLedger] using hg.storeIdentity
  case storeSeq => simpa [saveLedger] using hg.storeSeq
  case storePulses => simpa [saveLedger] using hg.storePulses
  case storeLedger => simp [saveLedger]
  case storeHistory => simpa [saveLedger] using hg.storeHistory
  case storeContent => simpa [saveLedger] using hg.storeContent
  case storeIndex => simpa [saveLedger] using hg.storeIndex
  case storeSocial => simpa [saveLedger] using hg.storeSocial
  case storeFeeds => simpa [saveLedger] using hg.storeFeeds
  case storeChannels => simpa [saveLedger] using hg.storeChannels
  case chain => simpa [saveLedger, pulseSeqList] using hg.chain
  case seqBound =>
      intro p hp
      simp only [saveLedger] at hp
      simpa [saveLedger] using hg.seqBound p hp
  case nonneg =>
      intro p hp
      simp only [saveLedger] at hp
      exact hnn p hp
  case didNe => simpa [saveLedger] using hg.didNe
  case conserve => simpa [saveLedger] using hcv

theorem didXhe_ne_empty (s : String) : ("did:xhe:" ++ s) ≠ "" := by
  intro h
  have hd := congrArg String.data h
  rw [stringDataAppend] at hd
  simp at hd

/-- Saving a new identity with a nonempty did preserves the invariant. -/
theorem GoodState.saveIdentityG (k : Kernel) (g : Nat) (i : Identity) (hg : GoodState k g)
    (hne : i.did ≠ "") : GoodState (saveIdentity k i) g := by
  constructor
  case storeIdentity => simp [saveIdentity]
  case storeSeq => simpa [saveIdentity] using hg.storeSeq
  case storePulses => simpa [saveIdentity] using hg.storePulses
  case storeLedger => simpa [saveIdentity] using hg.storeLedger
  case storeHistory => simpa [saveIdentity] using hg.storeHistory
  case storeContent => simpa [saveIdentity] using hg.storeContent
  case storeIndex => simpa [saveIdentity] using hg.storeIndex
  case storeSocial => simpa [saveIdentity] using hg.storeSocial
  case storeFeeds => simpa [saveIdentity] using hg.storeFeeds
  case storeChannels => simpa [saveIdentity] using hg.storeChannels
  case chain => simpa [saveIdentity, pulseSeqList] using hg.chain
  case seqBound =>
      intro p hp
      simp only [saveIdentity] at hp
      simpa [saveIdentity] using hg.seqBound p hp
  case nonneg =>
      intro p hp
      simp only [saveIdentity] at hp
      exact hg.nonneg p hp
  case didNe => simpa [saveIdentity] using hne
  case conserve => simpa [saveIdentity] using hg.conserve

theorem good_mint (hpA : Pulse → String) (k : Kernel) (g : Nat) (amount : Int)
    (reason : String) (o : TxOracle) (tx : Transaction) (k2 : Kernel) (hg : GoodState k g)
    (h : mintSlips hpA k amount reason o = .ok (tx, k2)) : GoodState k2 g := by
  unfold mintSlips at h
  by_cases ha : amount ≤ 0
  · simp [ha] at h
  · simp only [if_neg ha, Except.ok.injEq, Prod.mk.injEq] at h
    obtain ⟨-, hk2⟩ := h
    subst hk2
    apply GoodState.emitCore
    apply hg.saveLedgerG k g g
    · apply nonneg_setKV
      · have := balOr0_nonneg k.slipLedger.balances hg.nonneg k.identity.did
        omega
      · exact hg.nonneg
    · dsimp only
      rw [sumVals_setKV, mintedSum_append]
      dsimp only
      rw [if_pos rfl]
      have := hg.conserve
      simp only [balOr0] at *
      omega

theorem good_transfer (hpA : Pulse → String) (k : Kernel) (g : Nat) (toDid : String)
    (amount : Int) (memo : String) (o : TxOracle) (tx : Transaction) (k2 : Kernel)
    (hg : GoodState k g) (h : transferSlips hpA k toDid amount memo o = .ok (tx, k2)) :
    GoodState k2 g := by
  unfold transferSlips at h
  by_cases ha : amount ≤ 0
  · simp [ha] at h
  · simp only [if_neg ha] at h
    by_cases hb : getSlipBalance k none < amount
    · simp [hb] at h
    · simp only [if_neg hb, Except.ok.injEq, Prod.mk.injEq] at h
      obtain ⟨-, hk2⟩ := h
      subst hk2
      apply GoodState.emitCore
      have hfb : (0 : Int) ≤ getSlipBalance k none - amount := by omega
      have hnn1 : ∀ p ∈ setKV k.slipLedger.balances k.identity.did
          (getSlipBalance k none - amount), 0 ≤ p.2 :=
        nonneg_setKV _ _ _ hfb hg.nonneg
      apply hg.saveLedgerG k g g
      · apply nonneg_setKV
        · have := balOr0_nonneg _ hnn1 toDid
          omega
        · exact hnn1
      · dsimp only
        rw [sumVals_setKV, sumVals_setKV, mintedSum_append]
        dsimp only
        rw [if_neg (by decide : ¬("TRANSFER" : String) = "MINT")]
        have hcv := hg.conserve
        have hself : (lookupKV k.slipLedger.balances k.identity.did).getD 0 =
            getSlipBalance k none := by
          simp [getSlipBalance, balOr0]
        simp only [balOr0] at *
        rw [hself]
        omega

theorem jsFalsyBal_getD (o : Option Int) (h : jsFalsyBal o = true) : o.getD 0 = 0 := by
  cases o with
  | none => rfl
  | some v =>
      simp [jsFalsyBal] at h
      simp [h]

/-- Bumping the persisted sequence counter (a pulse-scheme address
allocation) preserves the invariant: stored bounds only get looser. -/
theorem GoodState.saveSeqBump (k : Kernel) (g : Nat) (hg : GoodState k g) :
    GoodState (saveSeq k (k.pulseSequence + 1)) g := by
  constructor
  case storeIdentity => simpa [saveSeq] using hg.storeIdentity
  case storeSeq => simp [saveSeq]
  case storePulses => simpa [saveSeq] using hg.storePulses
  case storeLedger => simpa [saveSeq] using hg.storeLedger
  case storeHistory => simpa [saveSeq] using hg.storeHistory
  case storeContent => simpa [saveSeq] using hg.storeContent
  case storeIndex => simpa [saveSeq] using hg.storeIndex
  case storeSocial => simpa [saveSeq] using hg.storeSocial
  case storeFeeds => simpa [saveSeq] using hg.storeFeeds
  case storeChannels => simpa [saveSeq] using hg.storeChannels
  case chain => simpa [saveSeq, pulseSeqList] using hg.chain
  case seqBound =>
      intro p hp
      simp only [saveSeq] at hp
      obtain ⟨h1, h2, h3, h4⟩ := hg.seqBound p hp
      exact ⟨h1, by simp [saveSeq]; omega, h3, h4⟩
  case nonneg =>
      intro p hp
      simp only [saveSeq] at hp
      exact hg.nonneg p hp
  case didNe => simpa [saveSeq] using hg.didNe
  case conserve => simpa [saveSeq] using hg.conserve

theorem good_createIdentity (k : Kernel) (g : Nat) (idHex keyHex tsIdentity : String)
    (hg : GoodState k g) :
    GoodState (createIdentityK k idHex keyHex tsIdentity).2 (g + regenGrant k idHex) := by
  unfold createIdentityK regenGrant
  dsimp only
  have hk1 : GoodState (saveIdentity k
      { did := "did:xhe:" ++ idHex, publicKey := keyHex, created := tsIdentity, version := 1 }) g :=
    hg.saveIdentityG k g _ (didXhe_ne_empty idHex)
  have hsl : (saveIdentity k
      { did := "did:xhe:" ++ idHex, publicKey := keyHex, created := tsIdentity,
        version := 1 }).slipLedger = k.slipLedger := by simp [saveIdentity]
  rw [hsl]
  by_cases hgr : jsFalsyBal (lookupKV k.slipLedger.balances ("did:xhe:" ++ idHex)) = true
  · rw [if_pos hgr, if_pos hgr]
    apply hk1.saveLedgerG _ g (g + 1)
    · exact nonneg_setKV _ _ _ (by omega) hg.nonneg
    · dsimp only
      rw [sumVals_setKV, jsFalsyBal_getD _ hgr]
      have := hg.conserve
      push_cast
      omega
  · rw [if_neg hgr, if_neg hgr]
    simpa using hk1

theorem good_regen (hpA : Pulse → String) (k : Kernel) (g : Nat) (o : RegenOracle)
    (hg : GoodState k g) :
    GoodState (regenerateIdentity hpA k o).2 (g + regenGrant k o.idHex) := by
  unfold regenerateIdentity
  dsimp only
  apply GoodState.emitCore
  have h1 := hg.saveHistoryG k g (k.identityHistory ++
    [{ did := k.identity.did, publicKey := k.identity.publicKey, created := k.identity.created,
       version := k.identity.version, archivedAt := o.tsArchive, reason := "USER_REGENERATE" }])
  have h2 := good_createIdentity _ g o.idHex o.keyHex o.tsIdentity h1
  have hrg : regenGrant (saveHistory k (k.identityHistory ++
      [{ did := k.identity.did, publicKey := k.identity.publicKey,
         created := k.identity.created, version := k.identity.version,
         archivedAt := o.tsArchive, reason := "USER_REGENERATE" }])) o.idHex =
      regenGrant k o.idHex := by
    simp [regenGrant, saveHistory]
  rw [hrg] at h2
  exact h2

theorem good_reset (hpA : Pulse → String) (k : Kernel) (g : Nat) (preserve : Bool)
    (o : ResetOracle) (hg : GoodState k g) :
    GoodState (resetKernel hpA k preserve o) (if preserve then 0 else 1) := by
  unfold resetKernel
  dsimp only
  have hk1 : GoodState (emitPulseCore hpA k "KERNEL_RESET"
      (.kernelReset preserve o.tsPayload) o.tsPulse).2 g :=
    hg.emitCore hpA k g "KERNEL_RESET" (.kernelReset preserve o.tsPayload) o.tsPulse
  set k1 := (emitPulseCore hpA k "KERNEL_RESET" (.kernelReset preserve o.tsPayload) o.tsPulse).2
    with hk1def
  cases preserve with
  | true =>
      simp only [if_true]
      constructor
      case storeIdentity => simpa using hk1.storeIdentity
      case storeSeq => simp
      case storePulses => simp
      case storeLedger => simp [emptyLedger]
      case storeHistory => simpa using hk1.storeHistory
      case storeContent => simp
      case storeIndex => simp
      case storeSocial => simp [emptySocial]
      case storeFeeds => simp
      case storeChannels => simp
      case chain => simp [pulseSeqList]
      case seqBound => intro p hp; simp at hp
      case nonneg => intro p hp; simp at hp
      case didNe => simpa using hk1.didNe
      case conserve => simp [sumVals, mintedSum]
  | false =>
      simp only [if_false, Bool.false_eq_true]
      unfold createIdentityK
      dsimp only
      rw [if_pos (by simp [saveIdentity, jsFalsyBal, lookupKV])]
      have hmid : GoodState (saveIdentity
          { store :=
              { kernelMeta := none, identity := none, identityHistory := none,
                contentStore := none, pulseStore := none, pulseSequence := none,
                addressIndex := none, slipLedger := none, socialGraph := none, feeds := none,
                channels := none },
            kernelMeta := k1.kernelMeta, pulseSequence := 0, identity := k1.identity,
            identityHistory := [], contentStore := [], pulseStore := [], addressIndex := [],
            slipLedger := { balances := [], transactions := [] },
            socialGraph := { following := [], followers := [], blocked := [] }, feeds := [],
            channels := [] }
          { did := "did:xhe:" ++ o.idHex, publicKey := o.keyHex, created := o.tsIdentity,
            version := 1 }) 0 := by
        constructor
        case storeIdentity => simp [saveIdentity]
        case storeSeq => simp [saveIdentity]
        case storePulses => simp [saveIdentity]
        case storeLedger => simp [saveIdentity, emptyLedger]
        case storeHistory => simp [saveIdentity]
        case storeContent => simp [saveIdentity]
        case storeIndex => simp [saveIdentity]
        case storeSocial => simp [saveIdentity, emptySocial]
        case storeFeeds => simp [saveIdentity]
        case storeChannels => simp [saveIdentity]
        case chain => simp [saveIdentity, pulseSeqList]
        case seqBound => intro p hp; simp [saveIdentity] at hp
        case nonneg => intro p hp; simp [saveIdentity] at hp
        case didNe => simp [saveIdentity]; exact didXhe_ne_empty o.idHex
        case conserve => simp [saveIdentity, sumVals, mintedSum]
      refine ?_
      apply hmid.saveLedgerG _ 0 1
      · intro p hp
        simp only [saveIdentity] at hp
        rcases mem_setKV _ _ _ _ hp with h | h
        · rw [h]; omega
        · simp at h
      · simp [saveIdentity, sumVals, mintedSum, setKV]

theorem good_bootLoad (k : Kernel) (g : Nat) (meta : KernelMeta) (hg : GoodState k g) :
    GoodState (bootLoad { k.store with kernelMeta := some meta } meta k.identity)
      (g + bootGrant k.store) := by
  have hled := hg.storeLedger
  simp only [emptyLedger] at hled
  have hsoc := hg.storeSocial
  simp only [emptySocial] at hsoc
  unfold bootLoad bootGrant
  simp only [emptyLedger]
  rw [hg.storeIdentity]
  dsimp only
  simp only [hg.storeSeq, hg.storePulses, hg.storeHistory, hg.storeContent, hg.storeIndex, hled]
  by_cases hgr : jsFalsyBal (lookupKV k.slipLedger.balances k.identity.did) = true
  · simp only [hgr, if_true]
    constructor
    case pos.storeIdentity => simpa using hg.storeIdentity
    case pos.storeSeq => simpa using hg.storeSeq
    case pos.storePulses => simpa using hg.storePulses
    case pos.storeLedger => simp [emptyLedger]
    case pos.storeHistory => simpa using hg.storeHistory
    case pos.storeContent => simpa using hg.storeContent
    case pos.storeIndex => simpa using hg.storeIndex
    case pos.storeSocial => simpa [emptySocial] using hsoc
    case pos.storeFeeds => simpa using hg.storeFeeds
    case pos.storeChannels => simpa using hg.storeChannels
    case pos.chain => simpa [pulseSeqList] using hg.chain
    case pos.seqBound =>
        intro p hp
        dsimp only at hp
        simpa using hg.seqBound p hp
    case pos.nonneg =>
        intro p hp
        dsimp only at hp
        exact nonneg_setKV _ _ _ (by omega) hg.nonneg p hp
    case pos.didNe => simpa using hg.didNe
    case pos.conserve =>
        dsimp only
        rw [sumVals_setKV, jsFalsyBal_getD _ hgr]
        have := hg.conserve
        push_cast
        omega
  · simp only [hgr, if_false]
    constructor
    case neg.storeIdentity => simpa using hg.storeIdentity
    case neg.storeSeq => simpa using hg.storeSeq
    case neg.storePulses => simpa using hg.storePulses
    case neg.storeLedger => simpa [emptyLedger] using hled
    case neg.storeHistory => simpa using hg.storeHistory
    case neg.storeContent => simpa using hg.storeContent
    case neg.storeIndex => simpa using hg.storeIndex
    case neg.storeSocial => simpa [emptySocial] using hsoc
    case neg.storeFeeds => simpa using hg.storeFeeds
    case neg.storeChannels => simpa using hg.storeChannels
    case neg.chain => simpa [pulseSeqList] using hg.chain
    case neg.seqBound =>
        intro p hp
        dsimp only at hp
        simpa using hg.seqBound p hp
    case neg.nonneg =>
        intro p hp
        dsimp only at hp
        exact hg.nonneg p hp
    case neg.didNe => simpa using hg.didNe
    case neg.conserve => simpa using hg.conserve

theorem good_boot (hpS : Pulse → String) (k : Kernel) (g : Nat) (o : InitOracle) (k2 : Kernel)
    (hg : GoodState k g) (h2 : initKernel hpS k.store o = .ok k2) :
    GoodState k2 (g + bootGrant k.store) := by
  unfold initKernel at h2
  dsimp only at h2
  rw [hg.storeIdentity] at h2
  dsimp only at h2
  rw [if_neg hg.didNe] at h2
  cases hm : k.store.kernelMeta with
  | none =>
      simp only [hm, Option.isNone_none, if_true, Except.ok.injEq] at h2
      subst h2
      apply GoodState.emitSync
      have hb := good_bootLoad k g
        { version := "1.0.0", created := o.tsCreated, lastActive := o.tsActive } hg
      simp only [hg.storeIdentity] at hb
      exact hb
  | some m =>
      simp only [hm, Option.isNone_some, Bool.false_eq_true, if_false, Except.ok.injEq] at h2
      subst h2
      have hb := good_bootLoad k g
        { version := m.version, created := m.created, lastActive := o.tsActive } hg
      simp only [hg.storeIdentity] at hb
      exact hb

theorem good_fresh (hpS : Pulse → String) (o o2 : InitOracle) (e : JsError) (st1 : Store)
    (k : Kernel) (h1 : initKernel hpS freshStore o = .error (e, st1))
    (h2 : initKernel hpS st1 o2 = .ok k) : GoodState k 1 := by
  unfold initKernel at h1
  simp only [freshStore] at h1
  simp only [Except.error.injEq, Prod.mk.injEq] at h1
  obtain ⟨he, hst⟩ := h1
  subst hst
  unfold initKernel at h2
  dsimp only at h2
  rw [if_neg (didXhe_ne_empty o.idHex)] at h2
  simp only [Option.isNone_some, Bool.false_eq_true, if_false, Except.ok.injEq] at h2
  subst h2
  unfold bootLoad
  dsimp only
  simp only [Option.getD_none, lookupKV, jsFalsyBal, if_true]
  constructor
  case storeIdentity => simp
  case storeSeq => simp
  case storePulses => simp
  case storeLedger => simp [emptyLedger]
  case storeHistory => simp
  case storeContent => simp
  case storeIndex => simp
  case storeSocial => simp [emptySocial]
  case storeFeeds => simp
  case storeChannels => simp
  case chain => simp [pulseSeqList]
  case seqBound => intro p hp; simp [setKV] at hp
  case nonneg =>
      intro p hp
      simp [setKV] at hp
      simp [hp]
  case didNe => exact didXhe_ne_empty o.idHex
  case conserve => simp [sumVals, mintedSum, setKV]

theorem good_genAddr (hpA : Pulse → String) (k : Kernel) (g : Nat) (content scheme : String)
    (optSeq : Option String) (o : GenOracle) (r : GenResult) (k2 : Kernel) (hg : GoodState k g)
    (h : generateAddress hpA k content scheme optSeq o = .ok (r, k2)) : GoodState k2 g := by
  unfold generateAddress at h
  by_cases hc : content = ""
  · simp [hc] at h
  · simp only [if_neg hc] at h
    by_cases h1 : scheme = "xhe"
    · simp only [if_pos h1, Except.ok.injEq, Prod.mk.injEq] at h
      obtain ⟨-, hk⟩ := h
      subst hk
      apply GoodState.emitCore
      apply GoodState.saveIndexG
      apply GoodState.saveContentG
      exact hg
    · simp only [if_neg h1] at h
      by_cases h2 : scheme = "did:xhe"
      · simp only [if_pos h2, Except.ok.injEq, Prod.mk.injEq] at h
        obtain ⟨-, hk⟩ := h
        subst hk
        apply GoodState.emitCore
        apply GoodState.saveIndexG
        apply GoodState.saveContentG
        exact hg
      · simp only [if_neg h2] at h
        by_cases h3 : scheme = "pulse"
        · simp only [if_pos h3] at h
          cases hos : jsOrNull optSeq with
          | some s =>
              simp only [hos, Except.ok.injEq, Prod.mk.injEq] at h
              obtain ⟨-, hk⟩ := h
              subst hk
              apply GoodState.emitCore
              apply GoodState.saveIndexG
              apply GoodState.saveContentG
              exact hg
          | none =>
              simp only [hos, Except.ok.injEq, Prod.mk.injEq] at h
              obtain ⟨-, hk⟩ := h
              subst hk
              apply GoodState.emitCore
              apply GoodState.saveIndexG
              apply GoodState.saveContentG
              exact GoodState.saveSeqBump k g hg
        · simp only [if_neg h3] at h
          by_cases h4 : scheme = "ipfs"
          · simp only [if_pos h4, Except.ok.injEq, Prod.mk.injEq] at h
            obtain ⟨-, hk⟩ := h
            subst hk
            apply GoodState.emitCore
            apply GoodState.saveIndexG
            apply GoodState.saveContentG
            exact hg
          · simp only [if_neg h4] at h
            simp at h

theorem good_resolve (hpA : Pulse → String) (k : Kernel) (g : Nat) (address tsPulse : String)
    (hg : GoodState k g) : GoodState (resolveAddress hpA k address tsPulse).2 g := by
  unfold resolveAddress
  cases hp : parseAddress address with
  | none => simpa [hp] using hg
  | some parsed =>
      simp only [hp]
      apply GoodState.emitCore
      exact hg

theorem good_follow (hpA : Pulse → String) (k : Kernel) (g : Nat) (did tsPulse : String)
    (r : Option SocialGraph) (k2 : Kernel) (hg : GoodState k g)
    (h : follow hpA k did tsPulse = .ok (r, k2)) : GoodState k2 g := by
  unfold follow at h
  by_cases h1 : did = k.identity.did
  · simp [h1] at h
  · simp only [if_neg h1] at h
    by_cases h2 : did ∈ k.socialGraph.following
    · simp only [if_pos h2, Except.ok.injEq, Prod.mk.injEq] at h
      obtain ⟨-, hk⟩ := h
      subst hk
      exact hg
    · simp only [if_neg h2] at h
      by_cases h3 : did ∈ k.socialGraph.blocked
      · simp [h3] at h
      · simp only [if_neg h3, Except.ok.injEq, Prod.mk.injEq] at h
        obtain ⟨-, hk⟩ := h
        subst hk
        apply GoodState.emitCore
        apply GoodState.saveSocialG
        exact hg

theorem good_unfollow (hpA : Pulse → String) (k : Kernel) (g : Nat) (did tsPulse : String)
    (hg : GoodState k g) : GoodState (unfollow hpA k did tsPulse).2 g := by
  unfold unfollow
  dsimp only
  apply GoodState.emitCore
  apply GoodState.saveSocialG
  exact hg

theorem good_post (hpA : Pulse → String) (k : Kernel) (g : Nat) (content : String)
    (replyTo repostOf channel : Option String) (o : PostOracle) (p : Post) (k2 : Kernel)
    (hg : GoodState k g) (h : createPost hpA k content replyTo repostOf channel o = .ok (p, k2)) :
    GoodState k2 g := by
  unfold createPost at h
  by_cases hc : content = ""
  · simp [hc] at h
  · simp only [if_neg hc] at h
    cases hch : jsOrNull channel with
    | some ch =>
        simp only [hch] at h
        split at h
        all_goals
          simp only [Except.ok.injEq, Prod.mk.injEq] at h
          obtain ⟨-, hk⟩ := h
          subst hk
          apply GoodState.emitCore
          first
          | (apply GoodState.saveChannelsG
             apply GoodState.saveFeedsG
             apply GoodState.saveContentG
             exact hg)
          | (apply GoodState.saveFeedsG
             apply GoodState.saveContentG
             exact hg)
    | none =>
        simp only [hch, Except.ok.injEq, Prod.mk.injEq] at h
        obtain ⟨-, hk⟩ := h
        subst hk
        apply GoodState.emitCore
        apply GoodState.saveFeedsG
        apply GoodState.saveContentG
        exact hg

theorem good_channel (hpA : Pulse → String) (k : Kernel) (g : Nat) (name description : String)
    (o : ChannelOracle) (hg : GoodState k g) :
    GoodState (createChannel hpA k name description o).2 g := by
  unfold createChannel
  dsimp only
  apply GoodState.emitCore
  apply GoodState.saveChannelsG
  exact hg

theorem good_clear (k : Kernel) (g : Nat) (hg : GoodState k g) :
    GoodState (clearAddressIndex k) g := by
  unfold clearAddressIndex
  apply GoodState.saveIndexG
  exact hg

/-- The master invariant: every reachable kernel state satisfies the
inductive invariant with its instrumented genesis-grant count. -/
theorem reach_good (hpA hpS : Pulse → String) (k : Kernel) (g : Nat)
    (h : ReachG hpA hpS k g) : GoodState k g := by
  induction h with
  | fresh o o2 e st1 k h1 h2 => exact good_fresh hpS o o2 e st1 k h1 h2
  | boot k g o k2 h h2 ih => exact good_boot hpS k g o k2 ih h2
  | mint k g amount reason o tx k2 h h2 ih => exact good_mint hpA k g amount reason o tx k2 ih h2
  | transfer k g toDid amount memo o tx k2 h h2 ih =>
      exact good_transfer hpA k g toDid amount memo o tx k2 ih h2
  | regen k g o h ih => exact good_regen hpA k g o ih
  | resetOp k g preserve o h ih => exact good_reset hpA k g preserve o ih
  | genAddr k g content scheme optSeq o r k2 h h2 ih =>
      exact good_genAddr hpA k g content scheme optSeq o r k2 ih h2
  | resolveOp k g address tsPulse h ih => exact good_resolve hpA k g address tsPulse ih
  | followOp k g did tsPulse r k2 h h2 ih => exact good_follow hpA k g did tsPulse r k2 ih h2
  | unfollowOp k g did tsPulse h ih => exact good_unfollow hpA k g did tsPulse ih
  | postOp k g content replyTo repostOf channel o p k2 h h2 ih =>
      exact good_post hpA k g content replyTo repostOf channel o p k2 ih h2
  | channelOp k g name description o h ih => exact good_channel hpA k g name description o ih
  | clearIdx k g h ih => exact good_clear k g ih

-- ============================================
-- Resolver outcome lemmas
-- ============================================

theorem resolveContentAddress_state (k : Kernel) (address : String) (parsed : ParsedAddress) :
    (resolveContentAddress k address parsed).state = "RESOLVED" ∨
    (resolveContentAddress k address parsed).state = "KNOWN_BUT_UNAVAILABLE" ∨
    (resolveContentAddress k address parsed).state = "UNKNOWN" := by
  unfold resolveContentAddress
  split
  · left; rfl
  · split
    · right; left; rfl
    · right; right; rfl

theorem resolveIdentityAddress_state (k : Kernel) (address : String) (parsed : ParsedAddress) :
    (resolveIdentityAddress k address parsed).state = "RESOLVED" ∨
    (resolveIdentityAddress k address parsed).state = "KNOWN_BUT_UNAVAILABLE" ∨
    (resolveIdentityAddress k address parsed).state = "UNKNOWN" := by
  unfold resolveIdentityAddress
  split
  · left; rfl
  · split
    · right; left; rfl
    · split
      · right; left; rfl
      · right; right; rfl

theorem resolvePulseAddress_state (k : Kernel) (address : String) (parsed : ParsedAddress) :
    (resolvePulseAddress k address parsed).state = "RESOLVED" ∨
    (resolvePulseAddress k address parsed).state = "KNOWN_BUT_UNAVAILABLE" ∨
    (resolvePulseAddress k address parsed).state = "UNKNOWN" := by
  unfold resolvePulseAddress
  split
  all_goals
    dsimp only
    split
    · left; rfl
    · right; right; rfl

theorem resolveSlipAddress_state (k : Kernel) (address : String) (parsed : ParsedAddress) :
    (resolveSlipAddress k address parsed).state = "RESOLVED" ∨
    (resolveSlipAddress k address parsed).state = "KNOWN_BUT_UNAVAILABLE" ∨
    (resolveSlipAddress k address parsed).state = "UNKNOWN" := by
  unfold resolveSlipAddress
  split
  · left; rfl
  · right; right; rfl

theorem resolveFeedAddress_state (k : Kernel) (address : String) (parsed : ParsedAddress) :
    (resolveFeedAddress k address parsed).state = "RESOLVED" ∨
    (resolveFeedAddress k address parsed).state = "KNOWN_BUT_UNAVAILABLE" ∨
    (resolveFeedAddress k address parsed).state = "UNKNOWN" := by
  unfold resolveFeedAddress
  split
  · left; rfl
  · right; right; rfl

theorem resolveChannelAddress_state (k : Kernel) (address : String) (parsed : ParsedAddress) :
    (resolveChannelAddress k address parsed).state = "RESOLVED" ∨
    (resolveChannelAddress k address parsed).state = "KNOWN_BUT_UNAVAILABLE" ∨
    (resolveChannelAddress k address parsed).state = "UNKNOWN" := by
  unfold resolveChannelAddress
  split
  · left; rfl
  · right; right; rfl

-- ============================================
-- Standalone SeqBound lemmas (for claims about single operations)
-- ============================================

theorem seqBound_of_eq (k k2 : Kernel) (hp : k2.pulseStore = k.pulseStore)
    (hs : k2.pulseSequence = k.pulseSequence) (hB : SeqBound k) : SeqBound k2 := by
  intro p hpm
  rw [hp] at hpm
  rw [hs]
  exact hB p hpm

theorem seqBound_appendPulse (hashFn : Pulse → String) (k : Kernel) (ty : String) (pl : Payload)
    (ts author version : String) (hB : SeqBound k) :
    SeqBound (appendPulse hashFn k ty pl ts author version).2 := by
  have hfresh := pulseKey_fresh k hB (k.pulseSequence + 1) (by omega)
  simp only [SeqBound, appendPulse, saveSeq, savePulses]
  rw [setKV_of_lookup_none _ _ _ (hfresh _)]
  intro p hp
  rcases List.mem_append.mp hp with h | h
  · obtain ⟨h1, h2, h3, h4⟩ := hB p h
    exact ⟨h1, by omega, h3, h4⟩
  · simp only [List.mem_singleton] at h
    subst h
    refine ⟨?_, ?_, ?_, ?_⟩ <;> simp [pulseSeqNat, valChars_padSeq]

-- ============================================
-- Merge lemmas for import
-- ============================================

theorem lookupKV_append_single {V : Type} (m : List (String × V)) (q : String × V) (x : String) :
    lookupKV (m ++ [q]) x =
      match lookupKV m x with
      | some v => some v
      | none => if q.1 = x then some q.2 else none := by
  induction m with
  | nil => simp [lookupKV]
  | cons p rest ih =>
      by_cases h : p.1 = x
      · simp [lookupKV, h]
      · simp only [List.cons_append, lookupKV, if_neg h]
        exact ih

theorem mergeCount_go {V : Type} (src : List (String × V)) :
    ∀ (acc : List (String × V)) (n : Nat), (src.map Prod.fst).Nodup →
    (∀ p ∈ src, lookupKV acc p.1 = none) →
    src.foldl
      (fun acc p =>
        match lookupKV acc.1 p.1 with
        | none => (setKV acc.1 p.1 p.2, acc.2 + 1)
        | some _ => acc)
      (acc, n) = (acc ++ src, n + src.length) := by
  induction src with
  | nil => intro acc n _ _; simp
  | cons p rest ih =>
      intro acc n hnd hdisj
      have hp : lookupKV acc p.1 = none := hdisj p (by simp)
      simp only [List.foldl_cons, hp]
      rw [setKV_of_lookup_none _ _ _ hp]
      have hnd2 : (rest.map Prod.fst).Nodup := by
        simp only [List.map_cons, List.nodup_cons] at hnd
        exact hnd.2
      have hnotin : p.1 ∉ rest.map Prod.fst := by
        simp only [List.map_cons, List.nodup_cons] at hnd
        exact hnd.1
      have hdisj2 : ∀ q ∈ rest, lookupKV (acc ++ [p]) q.1 = none := by
        intro q hq
        rw [lookupKV_append_single]
        rw [hdisj q (by simp [hq])]
        have : p.1 ≠ q.1 := by
          intro hcontra
          exact hnotin (by rw [hcontra]; exact List.mem_map_of_mem _ hq)
        simp [this]
      rw [ih (acc ++ [p]) (n + 1) hnd2 hdisj2]
      simp
      omega

theorem mergeCount_empty_target {V : Type} (src : List (String × V))
    (hnd : (src.map Prod.fst).Nodup) : mergeCount ([] : List (String × V)) src = (src, src.length) := by
  unfold mergeCount
  rw [mergeCount_go src [] 0 hnd (fun p _ => rfl)]
  simp

theorem reachDemo0 : ReachG hpA0 hpS0 demoK0 1 := by
  apply ReachG.fresh oInit1 oInit2 demoErr demoStore1 demoK0
  · rfl
  · rfl

theorem reachDemo1 : ReachG hpA0 hpS0 demoK1 1 :=
  ReachG.genAddr demoK0 1 "a" "pulse" none oGen0 demoGen1 demoK1 reachDemo0 (by rfl)

-- ============================================
-- Claims
-- ============================================

/-- Claim C1: for every kernel state reachable from a fresh kernel by any
sequence of kernel operations (including mint, transfer, regenerate
identity, reset, and boot), the sum of all balances in the slip ledger
equals 100 times the number of genesis grants recorded in the current
ledger plus the sum of all minted amounts, and no balance is ever
negative. -/
theorem ledger_conservation (hpA hpS : Pulse → String) (k : Kernel) (g : Nat)
    (h : ReachG hpA hpS k g) :
    sumVals k.slipLedger.balances = 100 * (g : Int) + mintedSum k.slipLedger.transactions ∧
    ∀ p ∈ k.slipLedger.balances, 0 ≤ p.2 :=
  ⟨(reach_good hpA hpS k g h).conserve, (reach_good hpA hpS k g h).nonneg⟩

theorem ledger_conservation_witness :
    sumVals demoK0.slipLedger.balances =
      100 * ((1 : Nat) : Int) + mintedSum demoK0.slipLedger.transactions ∧
    ∀ p ∈ demoK0.slipLedger.balances, 0 ≤ p.2 :=
  ledger_conservation hpA0 hpS0 demoK0 1 reachDemo0

/-- Claim C2 (counterexample): after one pulse-scheme `generateAddress`
call on a freshly-booted kernel, the stored pulse sequence list is `[2]` —
a sequence number was consumed for the address itself without storing any
pulse, so the stored sequences do not form a gap-free run starting at 1
(which would be `[1]` here).  The state is reachable. -/
theorem pulse_gap_cx :
    (demoK1.pulseStore.map fun p => pulseSeqNat p.2) = [2] ∧
    List.range' 1 demoK1.pulseStore.length = [1] ∧
    ReachG hpA0 hpS0 demoK1 1 :=
  ⟨by decide, by decide, reachDemo1⟩

/-- Claim C2 (amended): for every reachable kernel state (over boots, mints,
transfers, regenerations, resets, address generation and resolution, social
and post operations — state import excluded, since it merges foreign pulses
verbatim), the sequence numbers attached to stored pulses are strictly
increasing in insertion order (hence each allocated number appears on at
most one stored pulse), every stored sequence is a positive integer bounded
by the persisted counter, and the counter persisted in the durable store
agrees with the in-memory counter (so it survives a restart against the
same store).  Gaps can occur: pulse-scheme address generation consumes a
sequence number without storing a pulse. -/
theorem pulse_sequence_monotone (hpA hpS : Pulse → String) (k : Kernel) (g : Nat)
    (h : ReachG hpA hpS k g) :
    List.Chain' (· < ·) (pulseSeqList k) ∧
    (∀ p ∈ k.pulseStore, 1 ≤ pulseSeqNat p.2 ∧ pulseSeqNat p.2 ≤ k.pulseSequence) ∧
    k.store.pulseSequence.getD 0 = k.pulseSequence :=
  ⟨(reach_good hpA hpS k g h).chain,
   fun p hp => ⟨((reach_good hpA hpS k g h).seqBound p hp).1,
                ((reach_good hpA hpS k g h).seqBound p hp).2.1⟩,
   (reach_good hpA hpS k g h).storeSeq⟩

theorem pulse_sequence_monotone_witness :
    List.Chain' (· < ·) (pulseSeqList demoK1) ∧
    (∀ p ∈ demoK1.pulseStore, 1 ≤ pulseSeqNat p.2 ∧ pulseSeqNat p.2 ≤ demoK1.pulseSequence) ∧
    demoK1.store.pulseSequence.getD 0 = demoK1.pulseSequence :=
  pulse_sequence_monotone hpA0 hpS0 demoK1 1 reachDemo1

/-- Claim C3: `transferSlips` fails with a validation error when the amount
is not positive, fails with the insufficient-balance error when the amount
exceeds the current identity's balance, and in both cases produces no new
state (every balance and the transaction log are untouched — the checks
precede every mutation); on success the sender debit and the recipient
credit are both present in the resulting ledger, together with exactly one
appended TRANSFER transaction.  The nonnegativity hypothesis holds of
every reachable state (it is part of the inductive invariant). -/
theorem transfer_error_handling (hpA : Pulse → String) (k : Kernel) (toDid : String)
    (amount : Int) (memo : String) (o : TxOracle) (hnn : 0 ≤ getSlipBalance k none) :
    (amount ≤ 0 → transferSlips hpA k toDid amount memo o =
        .error (.thrown "Amount must be positive")) ∧
    (getSlipBalance k none < amount → transferSlips hpA k toDid amount memo o =
        .error (.thrown ("Insufficient slips: have " ++ toString (getSlipBalance k none) ++
          ", need " ++ toString amount))) ∧
    (0 < amount → amount ≤ getSlipBalance k none → toDid ≠ k.identity.did →
      ∃ tx k2, transferSlips hpA k toDid amount memo o = .ok (tx, k2) ∧
        lookupKV k2.slipLedger.balances k.identity.did =
          some (getSlipBalance k none - amount) ∧
        lookupKV k2.slipLedger.balances toDid =
          some (balOr0 (lookupKV k.slipLedger.balances toDid) + amount) ∧
        k2.slipLedger.transactions = k.slipLedger.transactions ++
          [{ id := o.txId, type := "TRANSFER", fromDid := some k.identity.did, toDid := toDid,
             amount := amount, reason := none, memo := some memo, timestamp := o.ts,
             address := "slip://" ++ o.txId }] ∧
        tx.type = "TRANSFER" ∧ tx.amount = amount) := by
  refine ⟨?_, ?_, ?_⟩
  · intro ha
    unfold transferSlips
    rw [if_pos ha]
  · intro hlt
    have ha : ¬ amount ≤ 0 := by omega
    unfold transferSlips
    rw [if_neg ha]
    dsimp only
    rw [if_pos hlt]
  · intro h0 hle hne
    unfold transferSlips
    rw [if_neg (by omega : ¬ amount ≤ 0)]
    dsimp only
    rw [if_neg (by omega : ¬ getSlipBalance k none < amount)]
    refine ⟨_, _, rfl, ?_, ?_, ?_, rfl, rfl⟩
    · simp only [emitPulseCore, appendPulse, saveSeq, savePulses, saveLedger]
      rw [lookupKV_setKV_ne _ toDid k.identity.did _ hne]
      exact lookupKV_setKV_self _ _ _
    · simp only [emitPulseCore, appendPulse, saveSeq, savePulses, saveLedger]
      rw [lookupKV_setKV_self]
      rw [lookupKV_setKV_ne _ k.identity.did toDid _ (fun hc => hne hc.symm)]
    · simp only [emitPulseCore, appendPulse, saveSeq, savePulses, saveLedger]

theorem transfer_error_handling_witness :
    (0 : Int) ≤ getSlipBalance demoK0 none ∧
    ((30 : Int) ≤ 0 → transferSlips hpA0 demoK0 "did:xhe:zz" 30 "m"
        { txId := "tx1", ts := "u1", tsPulse := "u2" } =
        .error (.thrown "Amount must be positive")) ∧
    (getSlipBalance demoK0 none < 30 → transferSlips hpA0 demoK0 "did:xhe:zz" 30 "m"
        { txId := "tx1", ts := "u1", tsPulse := "u2" } =
        .error (.thrown ("Insufficient slips: have " ++ toString (getSlipBalance demoK0 none) ++
          ", need " ++ toString (30 : Int)))) ∧
    ((0 : Int) < 30 → (30 : Int) ≤ getSlipBalance demoK0 none →
      "did:xhe:zz" ≠ demoK0.identity.did →
      ∃ tx k2, transferSlips hpA0 demoK0 "did:xhe:zz" 30 "m"
          { txId := "tx1", ts := "u1", tsPulse := "u2" } = .ok (tx, k2) ∧
        lookupKV k2.slipLedger.balances demoK0.identity.did =
          some (getSlipBalance demoK0 none - 30) ∧
        lookupKV k2.slipLedger.balances "did:xhe:zz" =
          some (balOr0 (lookupKV demoK0.slipLedger.balances "did:xhe:zz") + 30) ∧
        k2.slipLedger.transactions = demoK0.slipLedger.transactions ++
          [{ id := "tx1", type := "TRANSFER", fromDid := some demoK0.identity.did,
             toDid := "did:xhe:zz", amount := 30, reason := none, memo := some "m",
             timestamp := "u1", address := "slip://" ++ "tx1" }] ∧
        tx.type = "TRANSFER" ∧ tx.amount = 30) :=
  ⟨by decide,
   transfer_error_handling hpA0 demoK0 "did:xhe:zz" 30 "m"
     { txId := "tx1", ts := "u1", tsPulse := "u2" } (by decide)⟩

/-- Claim C4: `resolveAddress` is total (the model is a plain function — no
path throws): on parse failure it returns a result in state `INVALID` and
leaves the kernel unchanged (no pulse); on parse success the outcome state
is one of `RESOLVED`, `KNOWN_BUT_UNAVAILABLE`, `UNKNOWN`, the content
store, slip ledger, address index and social graph are untouched, and
exactly one `ADDRESS_RESOLVE` pulse is appended to the pulse store.  The
`SeqBound` hypothesis (stored sequences bounded by the counter) holds of
every reachable state (it is part of the inductive invariant). -/
theorem resolve_failure_safe (hpA : Pulse → String) (k : Kernel) (address tsPulse : String)
    (hB : SeqBound k) :
    (parseAddress address = none →
        (resolveAddress hpA k address tsPulse).1.state = "INVALID" ∧
        (resolveAddress hpA k address tsPulse).2 = k) ∧
    (∀ parsed, parseAddress address = some parsed →
        ((resolveAddress hpA k address tsPulse).1.state = "RESOLVED" ∨
         (resolveAddress hpA k address tsPulse).1.state = "KNOWN_BUT_UNAVAILABLE" ∨
         (resolveAddress hpA k address tsPulse).1.state = "UNKNOWN") ∧
        (resolveAddress hpA k address tsPulse).2.contentStore = k.contentStore ∧
        (resolveAddress hpA k address tsPulse).2.slipLedger = k.slipLedger ∧
        (resolveAddress hpA k address tsPulse).2.addressIndex = k.addressIndex ∧
        (resolveAddress hpA k address tsPulse).2.socialGraph = k.socialGraph ∧
        ∃ pid sp, (resolveAddress hpA k address tsPulse).2.pulseStore =
            k.pulseStore ++ [(pid, sp)] ∧ sp.type = "ADDRESS_RESOLVE" ∧
          (resolveAddress hpA k address tsPulse).2.pulseStore.length =
            k.pulseStore.length + 1) := by
  constructor
  · intro hp
    unfold resolveAddress
    rw [hp]
    exact ⟨rfl, rfl⟩
  · intro parsed hp
    unfold resolveAddress
    rw [hp]
    dsimp only
    refine ⟨?_, ?_, ?_, ?_, ?_, ?_⟩
    · by_cases c1 : parsed.scheme = "xhe" ∨ parsed.scheme = "ipfs"
      · rw [if_pos c1]
        apply resolveContentAddress_state
      · rw [if_neg c1]
        by_cases c2 : parsed.scheme = "did:xhe"
        · rw [if_pos c2]
          apply resolveIdentityAddress_state
        · rw [if_neg c2]
          by_cases c3 : parsed.scheme = "pulse"
          · rw [if_pos c3]
            apply resolvePulseAddress_state
          · rw [if_neg c3]
            by_cases c4 : parsed.scheme = "slip"
            · rw [if_pos c4]
              apply resolveSlipAddress_state
            · rw [if_neg c4]
              by_cases c5 : parsed.scheme = "feed"
              · rw [if_pos c5]
                apply resolveFeedAddress_state
              · rw [if_neg c5]
                by_cases c6 : parsed.scheme = "channel"
                · rw [if_pos c6]
                  apply resolveChannelAddress_state
                · rw [if_neg c6]
                  right; right; rfl
    · simp [emitPulseCore, appendPulse, saveSeq, savePulses]
    · simp [emitPulseCore, appendPulse, saveSeq, savePulses]
    · simp [emitPulseCore, appendPulse, saveSeq, savePulses]
    · simp [emitPulseCore, appendPulse, saveSeq, savePulses]
    · exact ⟨_, _,
        appendPulse_shape hpA k "ADDRESS_RESOLVE"
          (.addressResolve (takeChars address 40) parsed.scheme) tsPulse k.identity.did
          k.kernelMeta.version hB,
        rfl,
        by
          unfold emitPulseCore
          rw [appendPulse_shape hpA k "ADDRESS_RESOLVE"
            (.addressResolve (takeChars address 40) parsed.scheme) tsPulse k.identity.did
            k.kernelMeta.version hB]
          simp⟩

theorem resolve_failure_safe_witness :
    SeqBound demoK0 ∧
    ((parseAddress "bogus" = none →
        (resolveAddress hpA0 demoK0 "bogus" "tv").1.state = "INVALID" ∧
        (resolveAddress hpA0 demoK0 "bogus" "tv").2 = demoK0) ∧
     (∀ parsed, parseAddress "bogus" = some parsed →
        ((resolveAddress hpA0 demoK0 "bogus" "tv").1.state = "RESOLVED" ∨
         (resolveAddress hpA0 demoK0 "bogus" "tv").1.state = "KNOWN_BUT_UNAVAILABLE" ∨
         (resolveAddress hpA0 demoK0 "bogus" "tv").1.state = "UNKNOWN") ∧
        (resolveAddress hpA0 demoK0 "bogus" "tv").2.contentStore = demoK0.contentStore ∧
        (resolveAddress hpA0 demoK0 "bogus" "tv").2.slipLedger = demoK0.slipLedger ∧
        (resolveAddress hpA0 demoK0 "bogus" "tv").2.addressIndex = demoK0.addressIndex ∧
        (resolveAddress hpA0 demoK0 "bogus" "tv").2.socialGraph = demoK0.socialGraph ∧
        ∃ pid sp, (resolveAddress hpA0 demoK0 "bogus" "tv").2.pulseStore =
            demoK0.pulseStore ++ [(pid, sp)] ∧ sp.type = "ADDRESS_RESOLVE" ∧
          (resolveAddress hpA0 demoK0 "bogus" "tv").2.pulseStore.length =
            demoK0.pulseStore.length + 1)) :=
  ⟨by
    intro p hp
    rw [show demoK0.pulseStore = ([] : List (String × StoredPulse)) from rfl] at hp
    simp at hp,
   resolve_failure_safe hpA0 demoK0 "bogus" "tv" (by
    intro p hp
    rw [show demoK0.pulseStore = ([] : List (String × StoredPulse)) from rfl] at hp
    simp at hp)⟩

/-- Claim C5 (code bug): constructing a kernel over an empty durable store
does not produce a kernel with balance 100 and a `KERNEL_INIT` pulse — it
throws a `TypeError`.  `_createIdentity` reads `this.slipLedger.balances`
before `_initializeKernel` has loaded the slip ledger, so the very first
construction on a fresh store fails after having persisted only the kernel
metadata and the new identity. -/
theorem fresh_boot_throws (hpS : Pulse → String) (o : InitOracle) :
    initKernel hpS freshStore o =
      .error (JsError.typeError "Cannot read properties of undefined (reading balances)",
        { freshStore with
            kernelMeta := some { version := "1.0.0", created := o.tsCreated,
                                 lastActive := o.tsActive },
            identity := some { did := "did:xhe:" ++ o.idHex, publicKey := o.keyHex,
                               created := o.tsIdentity, version := 1 } }) := by
  rfl

theorem seqBound_saveContent (k : Kernel) (c : List (String × ContentEntry)) (hB : SeqBound k) :
    SeqBound (saveContent k c) :=
  seqBound_of_eq k (saveContent k c) (by simp [saveContent]) (by simp [saveContent]) hB

theorem seqBound_saveIndex (k : Kernel) (a : List (String × IndexEntry)) (hB : SeqBound k) :
    SeqBound (saveIndex k a) :=
  seqBound_of_eq k (saveIndex k a) (by simp [saveIndex]) (by simp [saveIndex]) hB

/-- Characterization of one `generateAddress` call with the content scheme:
it succeeds, the address is `xhe://` followed by the SHA-256 of the content,
the content store is overwritten at the hash key with an entry carrying this
call's timestamp, and exactly one pulse is appended. -/
theorem generateAddress_xhe_spec (hpA : Pulse → String) (k : Kernel) (content : String)
    (o : GenOracle) (hc : content ≠ "") (hB : SeqBound k) :
    ∃ r k1, generateAddress hpA k content "xhe" none o = .ok (r, k1) ∧
      r.address = "xhe://" ++ sha256 content ∧
      r.hash = sha256 content ∧
      k1.contentStore = setKV k.contentStore (sha256 content)
        { content := content, timestamp := o.ts, author := k.identity.did, scheme := "xhe",
          postMeta := none } ∧
      k1.identity = k.identity ∧
      k1.pulseStore.length = k.pulseStore.length + 1 ∧
      k1.pulseSequence = k.pulseSequence + 1 ∧
      SeqBound k1 := by
  unfold generateAddress
  rw [if_neg hc]
  dsimp only
  rw [if_pos rfl]
  dsimp only
  refine ⟨_, _, rfl, rfl, rfl, ?_, ?_, ?_, ?_, ?_⟩
  · simp [emitPulseCore, appendPulse, saveSeq, savePulses, saveIndex, saveContent]
  · simp [emitPulseCore, appendPulse, saveSeq, savePulses, saveIndex, saveContent]
  · unfold emitPulseCore
    rw [appendPulse_shape hpA _ _ _ _ _ _
      (seqBound_saveIndex _ _ (seqBound_saveContent _ _ hB))]
    simp [saveIndex, saveContent]
  · simp [emitPulseCore, appendPulse, saveSeq, savePulses, saveIndex, saveContent]
  · unfold emitPulseCore
    exact seqBound_appendPulse hpA _ _ _ _ _ _
      (seqBound_saveIndex _ _ (seqBound_saveContent _ _ hB))

/-- Claim C6 (counterexample): calling `generateAddress` twice with the
same content does not leave the stored content-store value unchanged — the
second call overwrites the entry with its own timestamp, so when the two
calls observe different clock readings the stored value changes. -/
theorem generate_twice_overwrite_cx :
    lookupKV demoC6a.contentStore (sha256 "a") =
      some { content := "a", timestamp := "T1", author := "did:xhe:aa", scheme := "xhe",
             postMeta := none } ∧
    lookupKV demoC6b.contentStore (sha256 "a") =
      some { content := "a", timestamp := "T2", author := "did:xhe:aa", scheme := "xhe",
             postMeta := none } ∧
    lookupKV demoC6b.contentStore (sha256 "a") ≠
      lookupKV demoC6a.contentStore (sha256 "a") :=
  ⟨by rfl, by rfl, by decide⟩

/-- Claim C6 (amended): for every kernel and nonempty content, two
content-scheme `generateAddress` calls both succeed with address
`xhe://` ++ SHA-256(content) and the same hash; each call performs one
content-store write to the hash key (the second overwriting the first) and
appends one pulse, so the pulse count rises by 2; the content field of the
stored entry is unchanged, but its timestamp is the second call's — the
whole stored value is unchanged only when both calls observe the same
timestamp. -/
theorem generate_twice (hpA : Pulse → String) (k : Kernel) (content : String)
    (o1 o2 : GenOracle) (hc : content ≠ "") (hB : SeqBound k) :
    ∃ r1 k1 r2 k2,
      generateAddress hpA k content "xhe" none o1 = .ok (r1, k1) ∧
      generateAddress hpA k1 content "xhe" none o2 = .ok (r2, k2) ∧
      r1.address = "xhe://" ++ sha256 content ∧ r1.hash = sha256 content ∧
      r2.address = r1.address ∧ r2.hash = r1.hash ∧
      k1.contentStore = setKV k.contentStore (sha256 content)
        { content := content, timestamp := o1.ts, author := k.identity.did, scheme := "xhe",
          postMeta := none } ∧
      k2.contentStore = setKV k1.contentStore (sha256 content)
        { content := content, timestamp := o2.ts, author := k.identity.did, scheme := "xhe",
          postMeta := none } ∧
      lookupKV k2.contentStore (sha256 content) =
        some { content := content, timestamp := o2.ts, author := k.identity.did,
               scheme := "xhe", postMeta := none } ∧
      k2.pulseStore.length = k.pulseStore.length + 2 ∧
      k2.pulseSequence = k.pulseSequence + 2 := by
  obtain ⟨r1, k1, he1, ha1, hh1, hc1, hi1, hl1, hs1, hB1⟩ :=
    generateAddress_xhe_spec hpA k content o1 hc hB
  obtain ⟨r2, k2, he2, ha2, hh2, hc2, hi2, hl2, hs2, hB2⟩ :=
    generateAddress_xhe_spec hpA k1 content o2 hc hB1
  refine ⟨r1, k1, r2, k2, he1, he2, ha1, hh1, by rw [ha2, ha1], by rw [hh2, hh1], hc1,
    ?_, ?_, by omega, by omega⟩
  · rw [hc2, hi1]
  · rw [hc2, hi1]
    exact lookupKV_setKV_self _ _ _

theorem generate_twice_witness :
    (("a" : String) ≠ "") ∧ SeqBound demoK0 ∧
    (∃ r1 k1 r2 k2,
      generateAddress hpA0 demoK0 "a" "xhe" none oGenA = .ok (r1, k1) ∧
      generateAddress hpA0 k1 "a" "xhe" none oGenB = .ok (r2, k2) ∧
      r1.address = "xhe://" ++ sha256 "a" ∧ r1.hash = sha256 "a" ∧
      r2.address = r1.address ∧ r2.hash = r1.hash ∧
      k1.contentStore = setKV demoK0.contentStore (sha256 "a")
        { content := "a", timestamp := oGenA.ts, author := demoK0.identity.did, scheme := "xhe",
          postMeta := none } ∧
      k2.contentStore = setKV k1.contentStore (sha256 "a")
        { content := "a", timestamp := oGenB.ts, author := demoK0.identity.did, scheme := "xhe",
          postMeta := none } ∧
      lookupKV k2.contentStore (sha256 "a") =
        some { content := "a", timestamp := oGenB.ts, author := demoK0.identity.did,
               scheme := "xhe", postMeta := none } ∧
      k2.pulseStore.length = demoK0.pulseStore.length + 2 ∧
      k2.pulseSequence = demoK0.pulseSequence + 2) :=
  ⟨by decide,
   by
    intro p hp
    rw [show demoK0.pulseStore = ([] : List (String × StoredPulse)) from rfl] at hp
    simp at hp,
   generate_twice hpA0 demoK0 "a" oGenA oGenB (by decide) (by
    intro p hp
    rw [show demoK0.pulseStore = ([] : List (String × StoredPulse)) from rfl] at hp
    simp at hp)⟩

/-- Claim C7: `follow` fails on the current identity's own did; fails on a
blocked did; and is an idempotent no-op (success, no state change, no
pulse) on an already-followed did.  The hypothesis is the data-model
invariant that no did is both followed and blocked; it is needed because
the already-following check precedes the blocked check in the source. -/
theorem follow_rules (hpA : Pulse → String) (k : Kernel) (did tsPulse : String)
    (hwf : ∀ d ∈ k.socialGraph.blocked, d ∉ k.socialGraph.following) :
    (did = k.identity.did → follow hpA k did tsPulse = .error (.thrown "Cannot follow self")) ∧
    (did ≠ k.identity.did → did ∈ k.socialGraph.blocked →
        follow hpA k did tsPulse = .error (.thrown "Cannot follow blocked identity")) ∧
    (did ≠ k.identity.did → did ∈ k.socialGraph.following →
        follow hpA k did tsPulse = .ok (none, k)) := by
  refine ⟨?_, ?_, ?_⟩
  · intro h
    unfold follow
    rw [if_pos h]
  · intro h1 h2
    unfold follow
    rw [if_neg h1, if_neg (hwf did h2), if_pos h2]
  · intro h1 h2
    unfold follow
    rw [if_neg h1, if_pos h2]

theorem follow_rules_witness :
    (∀ d ∈ kC7.socialGraph.blocked, d ∉ kC7.socialGraph.following) ∧
    (("did:xhe:bb" : String) = kC7.identity.did →
        follow hpA0 kC7 "did:xhe:bb" "tw" = .error (.thrown "Cannot follow self")) ∧
    (("did:xhe:bb" : String) ≠ kC7.identity.did → "did:xhe:bb" ∈ kC7.socialGraph.blocked →
        follow hpA0 kC7 "did:xhe:bb" "tw" = .error (.thrown "Cannot follow blocked identity")) ∧
    (("did:xhe:bb" : String) ≠ kC7.identity.did → "did:xhe:bb" ∈ kC7.socialGraph.following →
        follow hpA0 kC7 "did:xhe:bb" "tw" = .ok (none, kC7)) :=
  ⟨by decide, follow_rules hpA0 kC7 "did:xhe:bb" "tw" (by decide)⟩

/-- Claim C8: `resetKernel` with `preserveIdentity` leaves the identity
unchanged and empties the ledger, pulse store, feeds and channels; without
it the identity is replaced by one whose did differs (given that the fresh
random suffix differs) and the wiped ledger immediately receives the new
identity's genesis grant of 100; in both cases the pulse store after the
reset is empty, so the `KERNEL_RESET` pulse emitted during the reset does
not survive it. -/
theorem reset_kernel_spec (hpA : Pulse → String) (k : Kernel) (o : ResetOracle)
    (hne : "did:xhe:" ++ o.idHex ≠ k.identity.did) :
    ((resetKernel hpA k true o).identity = k.identity ∧
     (resetKernel hpA k true o).slipLedger = { balances := [], transactions := [] } ∧
     (resetKernel hpA k true o).pulseStore = [] ∧
     (resetKernel hpA k true o).feeds = [] ∧
     (resetKernel hpA k true o).channels = []) ∧
    ((resetKernel hpA k false o).identity.did ≠ k.identity.did ∧
     (resetKernel hpA k false o).pulseStore = [] ∧
     (resetKernel hpA k false o).feeds = [] ∧
     (resetKernel hpA k false o).channels = [] ∧
     (resetKernel hpA k false o).slipLedger.transactions = [] ∧
     (resetKernel hpA k false o).slipLedger.balances = [("did:xhe:" ++ o.idHex, 100)]) := by
  refine ⟨⟨?_, ?_, ?_, ?_, ?_⟩, ⟨?_, ?_, ?_, ?_, ?_, ?_⟩⟩ <;>
    simp [resetKernel, createIdentityK, emitPulseCore, appendPulse, saveSeq, savePulses,
      saveIdentity, saveLedger, setKV, lookupKV, jsFalsyBal]
  exact hne

theorem reset_kernel_spec_witness :
    ("did:xhe:" ++ oReset0.idHex ≠ demoK0.identity.did) ∧
    (((resetKernel hpA0 demoK0 true oReset0).identity = demoK0.identity ∧
      (resetKernel hpA0 demoK0 true oReset0).slipLedger =
        { balances := [], transactions := [] } ∧
      (resetKernel hpA0 demoK0 true oReset0).pulseStore = [] ∧
      (resetKernel hpA0 demoK0 true oReset0).feeds = [] ∧
      (resetKernel hpA0 demoK0 true oReset0).channels = []) ∧
     ((resetKernel hpA0 demoK0 false oReset0).identity.did ≠ demoK0.identity.did ∧
      (resetKernel hpA0 demoK0 false oReset0).pulseStore = [] ∧
      (resetKernel hpA0 demoK0 false oReset0).feeds = [] ∧
      (resetKernel hpA0 demoK0 false oReset0).channels = [] ∧
      (resetKernel hpA0 demoK0 false oReset0).slipLedger.transactions = [] ∧
      (resetKernel hpA0 demoK0 false oReset0).slipLedger.balances =
        [("did:xhe:" ++ oReset0.idHex, 100)])) :=
  ⟨by decide, reset_kernel_spec hpA0 demoK0 oReset0 (by decide)⟩

/-- Claim C9: exporting a kernel's snapshot and importing it into a kernel
whose content store, address index and pulse store are empty reproduces
those three stores exactly — over empty targets the keep-existing /
add-missing merge inserts every entry in order (the exporting kernel's
stores have unique keys, as JS objects do). -/
theorem export_import_roundtrip (k t : Kernel) (ts : String)
    (hc : (k.contentStore.map Prod.fst).Nodup)
    (hi : (k.addressIndex.map Prod.fst).Nodup)
    (hp : (k.pulseStore.map Prod.fst).Nodup)
    (tc : t.contentStore = []) (ti : t.addressIndex = []) (tp : t.pulseStore = []) :
    (importKernelState t (exportKernelState k ts)).2.contentStore = k.contentStore ∧
    (importKernelState t (exportKernelState k ts)).2.addressIndex = k.addressIndex ∧
    (importKernelState t (exportKernelState k ts)).2.pulseStore = k.pulseStore := by
  unfold importKernelState exportKernelState
  dsimp only
  simp only [if_neg (by decide : ¬ ((2 : Int) ≠ 2))]
  simp only [saveContent, saveIndex, savePulses]
  rw [tc, ti, tp]
  rw [mergeCount_empty_target _ hc, mergeCount_empty_target _ hi, mergeCount_empty_target _ hp]
  exact ⟨rfl, rfl, rfl⟩

theorem export_import_roundtrip_witness :
    ((demoC6a.contentStore.map Prod.fst).Nodup ∧
     (demoC6a.addressIndex.map Prod.fst).Nodup ∧
     (demoC6a.pulseStore.map Prod.fst).Nodup ∧
     kernelFallback.contentStore = [] ∧ kernelFallback.addressIndex = [] ∧
     kernelFallback.pulseStore = []) ∧
    ((importKernelState kernelFallback (exportKernelState demoC6a "tz")).2.contentStore =
        demoC6a.contentStore ∧
     (importKernelState kernelFallback (exportKernelState demoC6a "tz")).2.addressIndex =
        demoC6a.addressIndex ∧
     (importKernelState kernelFallback (exportKernelState demoC6a "tz")).2.pulseStore =
        demoC6a.pulseStore) :=
  ⟨⟨by decide, by decide, by decide, rfl, rfl, rfl⟩,
   export_import_roundtrip demoC6a kernelFallback "tz" (by decide) (by decide) (by decide)
     rfl rfl rfl⟩

/-- Claim C10 (counterexample): `getSlipBalance` does not return the
recorded balance for every did string — the empty string is falsy, so
`did || this.identity.did` silently redirects the query to the current
identity: here the ledger records balance 30 for `""` but the call returns
the current identity's balance 50. -/
theorem getSlipBalance_empty_did_cx :
    lookupKV kC10.slipLedger.balances "" = some 30 ∧
    getSlipBalance kC10 (some "") = 50 :=
  ⟨by rfl, by rfl⟩

/-- Claim C10 (amended): `getSlipBalance` is a total function; for every
nonempty did string it returns the recorded balance, defaulting to 0 when
the ledger has no entry; called with no argument it returns the current
identity's balance; and the empty-string argument also falls back to the
current identity (JS falsiness of `""`). -/
theorem getSlipBalance_total (k : Kernel) (d : String) (hd : d ≠ "") :
    getSlipBalance k (some d) = balOr0 (lookupKV k.slipLedger.balances d) ∧
    (lookupKV k.slipLedger.balances d = none → getSlipBalance k (some d) = 0) ∧
    getSlipBalance k none = balOr0 (lookupKV k.slipLedger.balances k.identity.did) ∧
    getSlipBalance k (some "") = balOr0 (lookupKV k.slipLedger.balances k.identity.did) := by
  refine ⟨?_, ?_, rfl, ?_⟩
  · simp [getSlipBalance, hd]
  · intro h
    simp [getSlipBalance, hd, h, balOr0]
  · simp [getSlipBalance]

theorem getSlipBalance_total_witness :
    (("did:xhe:zz" : String) ≠ "") ∧
    (getSlipBalance kC10 (some "did:xhe:zz") =
        balOr0 (lookupKV kC10.slipLedger.balances "did:xhe:zz") ∧
     (lookupKV kC10.slipLedger.balances "did:xhe:zz" = none →
        getSlipBalance kC10 (some "did:xhe:zz") = 0) ∧
     getSlipBalance kC10 none =
        balOr0 (lookupKV kC10.slipLedger.balances kC10.identity.did) ∧
     getSlipBalance kC10 (some "") =
        balOr0 (lookupKV kC10.slipLedger.balances kC10.identity.did)) :=
  ⟨by decide, getSlipBalance_total kC10 "did:xhe:zz" (by decide)⟩
